import Mathlib

/-!
# gstimx2dmisc: a shallow embedding of `ext/imx2d/gstimx2dmisc.c`

The helper functions of the i.MX 2D GStreamer elements are translated into Lean
functions, one definition per C function, keeping the C names.

Conventions of the embedding.

* C enumerations become inductive types whose constructors carry the C
  enumerator names.  Enumerators that the translated functions never name are
  gathered in a constructor `other`.
* `guint` values are natural numbers reduced modulo `2^32` wherever the C code
  converts or can wrap; `int` values are integers, with the conversions of the
  C code written out (`toGuint`, `toGint`).  Arithmetic on C `int`s is integer
  arithmetic: C leaves signed overflow undefined, and the theorems name the
  ranges they rely on.
* A pointer argument that may be `NULL` is an `Option`.
* Arrays indexed by the plane are functions of the plane index.
* Output parameters become components of the returned value; an output
  parameter that a path leaves unwritten keeps the value passed in.
* `g_assert` failures end the program: functions that contain assertions that
  can fail return an `Option`, with `none` for the aborted run.
* Functions of GStreamer, GLib, libimx2d and of other files of the plugin, whose
  code is not part of `gstimx2dmisc.c`, are taken as parameters or modelled in a
  definition that says so.
-/

namespace Imx2d

/-! ## Enumerations -/

/-- The GStreamer video formats named in `gstimx2dmisc.c`, plus `UNKNOWN` and a
constructor for every other enumerator of `GstVideoFormat`. -/
inductive GstVideoFormat where
  | UNKNOWN
  | RGB16 | BGR16 | RGB | BGR
  | RGBx | RGBA | BGRx | BGRA | xRGB | ARGB | xBGR | ABGR
  | GRAY8
  | UYVY | YUY2 | YVYU | VYUY | v308
  | NV12 | NV21 | NV16 | NV61
  | YV12 | I420 | Y42B | Y444
  | other (code : Nat)
  deriving DecidableEq, Repr

/-- The pixel formats of libimx2d named in `gstimx2dmisc.c`, plus a constructor
for every other enumerator value of `Imx2dPixelFormat`. -/
inductive Imx2dPixelFormat where
  | UNKNOWN
  | RGB565 | BGR565 | RGB888 | BGR888
  | RGBX8888 | RGBA8888 | BGRX8888 | BGRA8888
  | XRGB8888 | ARGB8888 | XBGR8888 | ABGR8888
  | GRAY8
  | PACKED_YUV422_UYVY | PACKED_YUV422_YUYV | PACKED_YUV422_YVYU | PACKED_YUV422_VYUY
  | PACKED_YUV444
  | SEMI_PLANAR_NV12 | SEMI_PLANAR_NV21 | SEMI_PLANAR_NV16 | SEMI_PLANAR_NV61
  | FULLY_PLANAR_YV12 | FULLY_PLANAR_I420 | FULLY_PLANAR_Y42B | FULLY_PLANAR_Y444
  | TILED_NV12_AMPHION_8x128 | TILED_NV21_AMPHION_8x128
  | other (code : Nat)
  deriving DecidableEq, Repr

/-- The tile layouts of `GstImx2dTileLayout`. -/
inductive GstImx2dTileLayout where
  | NONE
  | AMPHION_8x128
  deriving DecidableEq, Repr

/-! ## Pixel format translation -/

/-- The second `switch` of `gst_imx_2d_convert_from_gst_video_format`: the
generic one-to-one table. -/
def convert_from_gst_video_format_generic : GstVideoFormat → Imx2dPixelFormat
  | .RGB16 => .RGB565
  | .BGR16 => .BGR565
  | .RGB => .RGB888
  | .BGR => .BGR888
  | .RGBx => .RGBX8888
  | .RGBA => .RGBA8888
  | .BGRx => .BGRX8888
  | .BGRA => .BGRA8888
  | .xRGB => .XRGB8888
  | .ARGB => .ARGB8888
  | .xBGR => .XBGR8888
  | .ABGR => .ABGR8888
  | .GRAY8 => .GRAY8
  | .UYVY => .PACKED_YUV422_UYVY
  | .YUY2 => .PACKED_YUV422_YUYV
  | .YVYU => .PACKED_YUV422_YVYU
  | .VYUY => .PACKED_YUV422_VYUY
  | .v308 => .PACKED_YUV444
  | .NV12 => .SEMI_PLANAR_NV12
  | .NV21 => .SEMI_PLANAR_NV21
  | .NV16 => .SEMI_PLANAR_NV16
  | .NV61 => .SEMI_PLANAR_NV61
  | .YV12 => .FULLY_PLANAR_YV12
  | .I420 => .FULLY_PLANAR_I420
  | .Y42B => .FULLY_PLANAR_Y42B
  | .Y444 => .FULLY_PLANAR_Y444
  | _ => .UNKNOWN

/-- Translation of `gst_imx_2d_convert_from_gst_video_format`.  The tile layout
pointer may be `NULL` (`none`).  With the Amphion layout, NV12 and NV21 return
from the first `switch`; everything else falls through to the generic table. -/
def gst_imx_2d_convert_from_gst_video_format
    (gst_video_format : GstVideoFormat) (tile_layout : Option GstImx2dTileLayout) :
    Imx2dPixelFormat :=
  match tile_layout with
  | some .AMPHION_8x128 =>
    match gst_video_format with
    | .NV12 => .TILED_NV12_AMPHION_8x128
    | .NV21 => .TILED_NV21_AMPHION_8x128
    | _ => convert_from_gst_video_format_generic gst_video_format
  | _ => convert_from_gst_video_format_generic gst_video_format

/-- Translation of `gst_imx_2d_convert_to_gst_video_format`. -/
def gst_imx_2d_convert_to_gst_video_format : Imx2dPixelFormat → GstVideoFormat
  | .RGB565 => .RGB16
  | .BGR565 => .BGR16
  | .RGB888 => .RGB
  | .BGR888 => .BGR
  | .RGBX8888 => .RGBx
  | .RGBA8888 => .RGBA
  | .BGRX8888 => .BGRx
  | .BGRA8888 => .BGRA
  | .XRGB8888 => .xRGB
  | .ARGB8888 => .ARGB
  | .XBGR8888 => .xBGR
  | .ABGR8888 => .ABGR
  | .GRAY8 => .GRAY8
  | .PACKED_YUV422_UYVY => .UYVY
  | .PACKED_YUV422_YUYV => .YUY2
  | .PACKED_YUV422_YVYU => .YVYU
  | .PACKED_YUV422_VYUY => .VYUY
  | .PACKED_YUV444 => .v308
  | .SEMI_PLANAR_NV12 => .NV12
  | .SEMI_PLANAR_NV21 => .NV21
  | .SEMI_PLANAR_NV16 => .NV16
  | .SEMI_PLANAR_NV61 => .NV61
  | .FULLY_PLANAR_YV12 => .YV12
  | .FULLY_PLANAR_I420 => .I420
  | .FULLY_PLANAR_Y42B => .Y42B
  | .FULLY_PLANAR_Y444 => .Y444
  | .TILED_NV12_AMPHION_8x128 => .NV12
  | .TILED_NV21_AMPHION_8x128 => .NV21
  | _ => .UNKNOWN

/-- The 26 formats that have a `case` label in the generic `switch` of
`gst_imx_2d_convert_from_gst_video_format`. -/
def genericTableFormats : List GstVideoFormat :=
  [.RGB16, .BGR16, .RGB, .BGR, .RGBx, .RGBA, .BGRx, .BGRA, .xRGB, .ARGB, .xBGR, .ABGR,
   .GRAY8, .UYVY, .YUY2, .YVYU, .VYUY, .v308, .NV12, .NV21, .NV16, .NV61,
   .YV12, .I420, .Y42B, .Y444]

/-! ## Machine integers -/

/-- The largest `gint`. -/
def G_MAXINT : Int := 2147483647

/-- The largest `guint64`. -/
def G_MAXUINT64 : Nat := 18446744073709551615

/-- Conversion of an integer value to `guint` (32 bits, reduction modulo `2^32`). -/
def toGuint (z : Int) : Nat := (z % 4294967296).toNat

/-- Conversion of an integer value to `gint` (32 bits, two's complement). -/
def toGint (z : Int) : Int := (z + 2147483648) % 4294967296 - 2147483648

/-! ## Library functions used by the letterbox computation -/

/-- The two GStreamer functions called by
`gst_imx_2d_canvas_calculate_letterbox_margin`.  Their code is not part of
`gstimx2dmisc.c`, so the computation takes them as a parameter.

* `gst_video_calculate_display_ratio video_width video_height video_par_n
  video_par_d display_par_n display_par_d` is `none` when the C function
  returns `FALSE`, and `some (dar_n, dar_d)` with the two `guint` outputs when
  it returns `TRUE`.
* `gst_util_uint64_scale_int val num denom` is the returned `guint64`. -/
structure GstLib where
  gst_video_calculate_display_ratio : Nat → Nat → Nat → Nat → Nat → Nat → Option (Nat × Nat)
  gst_util_uint64_scale_int : Nat → Int → Int → Nat

/-- Modelled from the spec: `gst_video_calculate_display_ratio` (GStreamer video
library, not in `gstimx2dmisc.c`) combines the frame size and the pixel aspect
ratio of the video with the pixel aspect ratio of the output surface into the
display ratio `(video_width * video_par_n * display_par_d) /
(video_height * video_par_d * display_par_n)` in lowest terms; the conversion
fails when numerator or denominator is zero or does not fit a `gint`. -/
def gst_video_calculate_display_ratio
    (video_width video_height video_par_n video_par_d display_par_n display_par_d : Nat) :
    Option (Nat × Nat) :=
  let num := video_width * video_par_n * display_par_d
  let den := video_height * video_par_d * display_par_n
  if num = 0 ∨ den = 0 then none
  else
    let g := Nat.gcd num den
    if (num / g : Int) ≤ G_MAXINT ∧ (den / g : Int) ≤ G_MAXINT then some (num / g, den / g)
    else none

/-- Modelled from the spec: `gst_util_uint64_scale_int` (GStreamer core, not in
`gstimx2dmisc.c`) computes `val * num / denom` with a 64 bit wide intermediate
product, rounding down.  GStreamer documents `G_MAXUINT64` as the result on
overflow, and the same value is what it returns when its argument check
`denom > 0`, `num >= 0` fails. -/
def gst_util_uint64_scale_int (val : Nat) (num denom : Int) : Nat :=
  if denom ≤ 0 ∨ num < 0 then G_MAXUINT64
  else min (val * num.toNat / denom.toNat) G_MAXUINT64

/-- The library functions as modelled above. -/
def gstreamer : GstLib where
  gst_video_calculate_display_ratio := Imx2d.gst_video_calculate_display_ratio
  gst_util_uint64_scale_int := Imx2d.gst_util_uint64_scale_int

/-! ## Letterbox geometry -/

/-- A region of libimx2d: `x1`, `y1`, `x2`, `y2` are C `int`s. -/
structure Imx2dRegion where
  x1 : Int
  y1 : Int
  x2 : Int
  y2 : Int
  deriving DecidableEq, Repr

/-- The four margin sizes of `Imx2dBlitMargin`, C `int`s. -/
structure Imx2dBlitMargin where
  left_margin : Int
  top_margin : Int
  right_margin : Int
  bottom_margin : Int
  deriving DecidableEq, Repr

/-- What the label `set_zero_margin` assigns: the four margins are set to zero. -/
def set_zero_margin : Imx2dBlitMargin :=
  { left_margin := 0, top_margin := 0, right_margin := 0, bottom_margin := 0 }

/-- The `guint` value `outer_w` of the letterbox computation. -/
def letterbox_outer_w (outer_region : Imx2dRegion) : Nat :=
  toGuint (outer_region.x2 - outer_region.x1)

/-- The `guint` value `outer_h` of the letterbox computation. -/
def letterbox_outer_h (outer_region : Imx2dRegion) : Nat :=
  toGuint (outer_region.y2 - outer_region.y1)

/-- The `guint` value `ratio_factor`: the scaled value cast to `guint`. -/
def letterbox_ratio_factor (lib : GstLib) (outer_region : Imx2dRegion)
    (display_ratio_d : Nat) : Nat :=
  lib.gst_util_uint64_scale_int (letterbox_outer_w outer_region)
    (toGint display_ratio_d) (toGint (letterbox_outer_h outer_region)) % 4294967296

/-- The pair `(inner_w, inner_h)` chosen by the `if (ratio_factor >= display_ratio_n)`
statement, before the `MIN` safeguard. -/
def letterbox_unclamped_inner (lib : GstLib) (outer_region : Imx2dRegion)
    (display_ratio_n display_ratio_d : Nat) : Nat × Nat :=
  let outer_w := letterbox_outer_w outer_region
  let outer_h := letterbox_outer_h outer_region
  if letterbox_ratio_factor lib outer_region display_ratio_d ≥ display_ratio_n then
    (lib.gst_util_uint64_scale_int outer_h (toGint display_ratio_n) (toGint display_ratio_d)
        % 4294967296,
      outer_h)
  else
    (outer_w,
      lib.gst_util_uint64_scale_int outer_w (toGint display_ratio_d) (toGint display_ratio_n)
        % 4294967296)

/-- The pair `(inner_w, inner_h)` after the `MIN` safeguard. -/
def letterbox_inner (lib : GstLib) (outer_region : Imx2dRegion)
    (display_ratio_n display_ratio_d : Nat) : Nat × Nat :=
  let u := letterbox_unclamped_inner lib outer_region display_ratio_n display_ratio_d
  (min u.1 (letterbox_outer_w outer_region), min u.2 (letterbox_outer_h outer_region))

/-- The part of `gst_imx_2d_canvas_calculate_letterbox_margin` after the display
ratio has been obtained and possibly swapped: lines from `outer_w = ...` to the
`return`. -/
def letterbox_fit (lib : GstLib) (outer_region : Imx2dRegion)
    (display_ratio_n display_ratio_d : Nat) : Imx2dBlitMargin × Imx2dRegion :=
  let outer_w := letterbox_outer_w outer_region
  let outer_h := letterbox_outer_h outer_region
  let inner := letterbox_inner lib outer_region display_ratio_n display_ratio_d
  let combined_w_margin : Nat := toGuint ((outer_w : Int) - inner.1)
  let combined_h_margin : Nat := toGuint ((outer_h : Int) - inner.2)
  let left_margin : Int := toGint ((combined_w_margin / 2 : Nat) : Int)
  let right_margin : Int := toGint (toGuint ((combined_w_margin : Int) - left_margin))
  let top_margin : Int := toGint ((combined_h_margin / 2 : Nat) : Int)
  let bottom_margin : Int := toGint (toGuint ((combined_h_margin : Int) - top_margin))
  ({ left_margin := left_margin, top_margin := top_margin,
     right_margin := right_margin, bottom_margin := bottom_margin },
   { x1 := outer_region.x1 + left_margin, y1 := outer_region.y1 + top_margin,
     x2 := outer_region.x2 - right_margin, y2 := outer_region.y2 - bottom_margin })

/-- Translation of `gst_imx_2d_canvas_calculate_letterbox_margin`.  The result is
the pair of the margin and the inner region after the call; `inner_region` is
the content of the caller's inner region before the call, which the paths
through `set_zero_margin` do not write. -/
def gst_imx_2d_canvas_calculate_letterbox_margin (lib : GstLib)
    (inner_region : Imx2dRegion) (outer_region : Imx2dRegion) (video_transposed : Bool)
    (video_width video_height video_par_n video_par_d : Nat) :
    Imx2dBlitMargin × Imx2dRegion :=
  let window_par_n := 1
  let window_par_d := 1
  if video_width = 0 ∨ video_height = 0 then (set_zero_margin, inner_region)
  else
    match lib.gst_video_calculate_display_ratio video_width video_height
        video_par_n video_par_d window_par_n window_par_d with
    | none => (set_zero_margin, inner_region)
    | some (dar_n, dar_d) =>
      if video_transposed then letterbox_fit lib outer_region dar_d dar_n
      else letterbox_fit lib outer_region dar_n dar_d

/-- The `denom` arguments of the calls of `gst_util_uint64_scale_int` that
`gst_imx_2d_canvas_calculate_letterbox_margin` executes, in order (empty on the
paths through `set_zero_margin`). -/
def letterbox_scale_denominators (lib : GstLib) (outer_region : Imx2dRegion)
    (video_transposed : Bool)
    (video_width video_height video_par_n video_par_d : Nat) : List Int :=
  if video_width = 0 ∨ video_height = 0 then []
  else
    match lib.gst_video_calculate_display_ratio video_width video_height
        video_par_n video_par_d 1 1 with
    | none => []
    | some (dar_n, dar_d) =>
      let display_ratio_n := if video_transposed then dar_d else dar_n
      let display_ratio_d := if video_transposed then dar_n else dar_d
      [toGint (letterbox_outer_h outer_region),
       if letterbox_ratio_factor lib outer_region display_ratio_d ≥ display_ratio_n
       then toGint display_ratio_d else toGint display_ratio_n]

/-! ## Buffers, video layouts and surfaces -/

/-- A `GstMemory` block, as far as the binder looks at it: whether
`gst_imx_is_imx_dma_buffer_memory` holds for it, and which `ImxDmaBuffer`
`gst_imx_get_dma_buffer_from_memory` extracts from it. -/
structure GstMemory where
  is_imx_dma_buffer_memory : Bool
  dma_buffer : Nat
  deriving DecidableEq, Repr

/-- The fields of `GstVideoMeta` read or written by the binders: `n_planes` and
`height` are `guint`, `stride` is an array of `gint`, `offset` an array of
`gsize`. -/
structure GstVideoMeta where
  n_planes : Nat
  height : Nat
  stride : Nat → Int
  offset : Nat → Nat

/-- The fields of `GstVideoInfo` read or written here: `GST_VIDEO_INFO_WIDTH`,
`GST_VIDEO_INFO_HEIGHT` (`gint`), `GST_VIDEO_INFO_N_PLANES`,
`GST_VIDEO_INFO_PLANE_STRIDE` and `GST_VIDEO_INFO_PLANE_OFFSET`. -/
structure GstVideoInfo where
  width : Int
  height : Int
  n_planes : Nat
  stride : Nat → Int
  offset : Nat → Nat

/-- A `GstBuffer`: its memory blocks in order (`gst_buffer_n_memory`,
`gst_buffer_peek_memory`) and the video meta attached to it, if any
(`gst_buffer_get_video_meta`). -/
structure GstBuffer where
  memory : List GstMemory
  videometa : Option GstVideoMeta

/-- The per-plane state of an `Imx2dSurface` set by
`imx_2d_surface_set_dma_buffer`: the DMA buffer of each plane and the byte
offset of the plane in that buffer. -/
structure Imx2dSurface where
  dma_buffers : Nat → Option Nat
  dma_buffer_offsets : Nat → Nat

/-- The fields of `Imx2dSurfaceDesc` written by the input binder. -/
structure Imx2dSurfaceDesc where
  plane_strides : Nat → Int
  num_padding_rows : Int

/-- Modelled from the spec: `imx_2d_surface_set_dma_buffer` (libimx2d, not in
`gstimx2dmisc.c`) records for one plane of the surface the borrowed
buffer-memory reference and the byte offset. -/
def imx_2d_surface_set_dma_buffer (surface : Imx2dSurface) (dma_buffer : Nat)
    (index : Nat) (offset : Nat) : Imx2dSurface :=
  { dma_buffers := Function.update surface.dma_buffers index (some dma_buffer),
    dma_buffer_offsets := Function.update surface.dma_buffer_offsets index offset }

/-- The C loop `for (plane_index = 0; plane_index < n; ++plane_index) body`, where
the body can end the program by a failed assertion (`none`). -/
def for_plane_index {σ : Type} (n : Nat) (body : Nat → σ → Option σ) (s : σ) : Option σ :=
  (List.range n).foldlM (fun st plane_index => body plane_index st) s

/-- The result of `g_assert (cond)` followed by the rest of the run. -/
def g_assert {α : Type} (cond : Bool) (rest : Option α) : Option α :=
  if cond then rest else none

/-! ## Input buffer structure check -/

/-- Translation of `gst_imx_2d_check_input_buffer_structure`. -/
def gst_imx_2d_check_input_buffer_structure (input_buffer : GstBuffer) (num_planes : Nat) :
    Bool :=
  let num_memory_blocks := input_buffer.memory.length
  if num_memory_blocks = 1 then true
  else if num_memory_blocks ≠ num_planes then false
  else true

/-! ## Binding an input buffer to a surface -/

/-- The loop bound of the plane loops of `gst_imx_2d_assign_input_buffer_to_surface`:
`videometa->n_planes` when the buffer has a video meta, otherwise
`GST_VIDEO_INFO_N_PLANES(input_video_info)`. -/
def input_num_planes (buffer : GstBuffer) (input_video_info : Option GstVideoInfo) : Nat :=
  match buffer.videometa with
  | some videometa => videometa.n_planes
  | none => match input_video_info with
    | some info => info.n_planes
    | none => 0

/-- The stride that the plane loops read for a plane. -/
def input_plane_stride (buffer : GstBuffer) (input_video_info : Option GstVideoInfo)
    (plane_index : Nat) : Int :=
  match buffer.videometa with
  | some videometa => videometa.stride plane_index
  | none => match input_video_info with
    | some info => info.stride plane_index
    | none => 0

/-- The offset that the plane loops of the single-block case read for a plane. -/
def input_plane_offset (buffer : GstBuffer) (input_video_info : Option GstVideoInfo)
    (plane_index : Nat) : Nat :=
  match buffer.videometa with
  | some videometa => videometa.offset plane_index
  | none => match input_video_info with
    | some info => info.offset plane_index
    | none => 0

/-- The value of the local variable `height`:
`(videometa != NULL) ? (int)(videometa->height) : GST_VIDEO_INFO_HEIGHT(input_video_info)`. -/
def input_frame_height (buffer : GstBuffer) (input_video_info : Option GstVideoInfo) : Int :=
  match buffer.videometa with
  | some videometa => toGint videometa.height
  | none => match input_video_info with
    | some info => info.height
    | none => 0

/-- The body of the two plane loops of the multi-block case (`num_memory_blocks > 1`):
the memory block `plane_index` must be DMA memory, the stride is copied, and the
plane is bound to the DMA buffer of that block at offset 0. -/
def assign_input_plane_multi (buffer : GstBuffer) (input_video_info : Option GstVideoInfo)
    (plane_index : Nat) (st : Imx2dSurface × Imx2dSurfaceDesc) :
    Option (Imx2dSurface × Imx2dSurfaceDesc) :=
  match buffer.memory[plane_index]? with
  | none => none
  | some in_memory =>
    let plane_strides := Function.update st.2.plane_strides plane_index
      (input_plane_stride buffer input_video_info plane_index)
    g_assert in_memory.is_imx_dma_buffer_memory
      (some (imx_2d_surface_set_dma_buffer st.1 in_memory.dma_buffer plane_index 0,
        { st.2 with plane_strides := plane_strides }))

/-- The body of the two plane loops of the single-block case: the stride is copied
and the plane is bound to the one DMA buffer at the offset of the plane. -/
def assign_input_plane_single (buffer : GstBuffer) (input_video_info : Option GstVideoInfo)
    (in_dma_buffer : Nat) (plane_index : Nat) (st : Imx2dSurface × Imx2dSurfaceDesc) :
    Option (Imx2dSurface × Imx2dSurfaceDesc) :=
  let plane_strides := Function.update st.2.plane_strides plane_index
    (input_plane_stride buffer input_video_info plane_index)
  some (imx_2d_surface_set_dma_buffer st.1 in_dma_buffer plane_index
      (input_plane_offset buffer input_video_info plane_index),
    { st.2 with plane_strides := plane_strides })

/-- The first part of `gst_imx_2d_assign_input_buffer_to_surface`, up to the end of
the `if (num_memory_blocks > 1) ... else ...` statement.  In the single-block case
`gst_imx_has_imx_dma_buffer_memory` and `gst_imx_get_dma_buffer_from_buffer` look
at the first memory block of the buffer.  The assertion `input_video_info != NULL`
is made on the paths without a video meta. -/
def assign_input_planes (buffer : GstBuffer) (surface : Imx2dSurface)
    (surface_desc : Imx2dSurfaceDesc) (input_video_info : Option GstVideoInfo) :
    Option (Imx2dSurface × Imx2dSurfaceDesc) :=
  let num_memory_blocks := buffer.memory.length
  if num_memory_blocks > 1 then
    g_assert (buffer.videometa.isSome || input_video_info.isSome)
      (for_plane_index (input_num_planes buffer input_video_info)
        (assign_input_plane_multi buffer input_video_info) (surface, surface_desc))
  else
    match buffer.memory.head? with
    | none => none
    | some in_memory =>
      g_assert in_memory.is_imx_dma_buffer_memory
        (g_assert (buffer.videometa.isSome || input_video_info.isSome)
          (for_plane_index (input_num_planes buffer input_video_info)
            (assign_input_plane_single buffer input_video_info in_memory.dma_buffer)
            (surface, surface_desc)))

/-- Translation of `gst_imx_2d_assign_input_buffer_to_surface`.
`total_num_frame_rows` stands for `gst_imx_video_utils_calculate_total_num_frame_rows`,
whose code is not in `gstimx2dmisc.c`; its result is stored in the `int` variable
`num_plane_rows`.  The result is `none` when one of the assertions fails. -/
def gst_imx_2d_assign_input_buffer_to_surface
    (total_num_frame_rows : GstBuffer → Option GstVideoInfo → Int)
    (uploaded_input_buffer : GstBuffer) (surface : Imx2dSurface)
    (surface_desc : Imx2dSurfaceDesc) (input_video_info : Option GstVideoInfo) :
    Option (Imx2dSurface × Imx2dSurfaceDesc) :=
  match assign_input_planes uploaded_input_buffer surface surface_desc input_video_info with
  | none => none
  | some (surface', surface_desc') =>
    let num_plane_rows := total_num_frame_rows uploaded_input_buffer input_video_info
    let height := input_frame_height uploaded_input_buffer input_video_info
    let num_padding_rows := num_plane_rows - height
    g_assert (decide (num_padding_rows ≥ 0))
      (some (surface', { surface_desc' with num_padding_rows := num_padding_rows }))

/-! ## Aligning the output video info -/

/-- The fields of `Imx2dHardwareCapabilities`: the two lists of supported formats
(with their lengths, the `num_supported_..._pixel_formats` fields), the frame
size limits and the two alignment constants, all C `int`s. -/
structure Imx2dHardwareCapabilities where
  supported_source_pixel_formats : List Imx2dPixelFormat
  supported_dest_pixel_formats : List Imx2dPixelFormat
  min_width : Int
  max_width : Int
  width_step_size : Int
  min_height : Int
  max_height : Int
  height_step_size : Int
  stride_alignment : Int
  total_row_count_alignment : Int

/-- A `GstVideoAlignment`: four `guint` paddings and the `guint` array `stride_align`. -/
structure GstVideoAlignment where
  padding_top : Nat
  padding_bottom : Nat
  padding_left : Nat
  padding_right : Nat
  stride_align : Nat → Nat

/-- The state after `gst_video_alignment_reset`: every field is zero. -/
def gst_video_alignment_reset : GstVideoAlignment :=
  { padding_top := 0, padding_bottom := 0, padding_left := 0, padding_right := 0,
    stride_align := fun _ => 0 }

/-- The value of `plane_row_remainder`; `/` is the C division, which truncates. The
expression is written over the integers: it is the value the `gint` computation has
whenever `num_plane_rows + (total_row_count_alignment - 1)` does not exceed
`G_MAXINT`, and the statements about it are made inside that range. -/
def align_plane_row_remainder (num_plane_rows total_row_count_alignment : Int) : Int :=
  Int.tdiv (num_plane_rows + (total_row_count_alignment - 1)) total_row_count_alignment
    * total_row_count_alignment - num_plane_rows

/-- The same expression with every intermediate result converted to the 32 bit `gint`
that holds it: `total_row_count_alignment - 1`, the sum, the product and the
difference. It is what a two's complement evaluation of that line yields. -/
def align_plane_row_remainder_gint (num_plane_rows total_row_count_alignment : Int) : Int :=
  toGint (toGint (Int.tdiv (toGint (num_plane_rows + toGint (total_row_count_alignment - 1)))
    total_row_count_alignment * total_row_count_alignment) - num_plane_rows)

/-- The `GstVideoAlignment` that `gst_imx_2d_align_output_video_info` hands to
`gst_video_info_align`: reset, then `stride_align[i] = stride_alignment - 1` for
each plane and `padding_bottom = plane_row_remainder`. -/
def align_video_alignment (n_planes : Nat) (stride_alignment : Int)
    (plane_row_remainder : Int) : GstVideoAlignment :=
  let video_alignment := gst_video_alignment_reset
  let video_alignment := (List.range n_planes).foldl
    (fun (va : GstVideoAlignment) i =>
      { va with stride_align :=
          Function.update va.stride_align i (toGuint (stride_alignment - 1)) })
    video_alignment
  { video_alignment with padding_bottom := toGuint plane_row_remainder }

/-- Translation of `gst_imx_2d_align_output_video_info`.
`total_num_frame_rows` stands for `gst_imx_video_utils_calculate_total_num_frame_rows`
called with a `NULL` buffer, and `gst_video_info_align` for the GStreamer function of
that name; the code of neither is in `gstimx2dmisc.c`.  `num_padding_rows` is the
content of the caller's output variable, `none` for a `NULL` pointer.  The result is
the video info and the output variable after the call. -/
def gst_imx_2d_align_output_video_info
    (total_num_frame_rows : GstVideoInfo → Int)
    (gst_video_info_align : GstVideoInfo → GstVideoAlignment → GstVideoInfo)
    (output_video_info : GstVideoInfo) (num_padding_rows : Option Int)
    (hardware_capabilities : Imx2dHardwareCapabilities) :
    GstVideoInfo × Option Int :=
  let original_output_video_info := output_video_info
  let stride_alignment := hardware_capabilities.stride_alignment
  let total_row_count_alignment := hardware_capabilities.total_row_count_alignment
  let num_plane_rows := total_num_frame_rows output_video_info
  let plane_row_remainder := align_plane_row_remainder num_plane_rows total_row_count_alignment
  let video_alignment :=
    align_video_alignment output_video_info.n_planes stride_alignment plane_row_remainder
  let output_video_info := gst_video_info_align output_video_info video_alignment
  let output_video_info :=
    { output_video_info with height := original_output_video_info.height }
  (output_video_info, num_padding_rows.map (fun _ => plane_row_remainder))

/-- Rounding `x` up to the next multiple of `a`, in C `int` arithmetic. -/
def round_up_to_multiple (x a : Int) : Int :=
  Int.tdiv (x + (a - 1)) a * a

/-- Modelled from the spec: `gst_video_info_align` (GStreamer video library, not in
`gstimx2dmisc.c`) rounds the stride of every plane up to the next multiple of the
stride alignment, which it receives as the mask `stride_align[i]`, one less than
the alignment, and applies the padding rows, which changes the height that the
caller then restores; the width is kept.  Plane offsets and the frame size in
bytes depend on the pixel format; they are outside this model and left as they
are. -/
def gst_video_info_align (info : GstVideoInfo) (align : GstVideoAlignment) : GstVideoInfo :=
  { info with
    height := info.height + align.padding_top + align.padding_bottom
    stride := fun i =>
      if i < info.n_planes then round_up_to_multiple (info.stride i) (align.stride_align i + 1)
      else info.stride i }

/-- A video info used in examples: a 1920x1080 frame with one plane. -/
def example_video_info : GstVideoInfo :=
  { width := 1920, height := 1080, n_planes := 1,
    stride := fun _ => 1920, offset := fun _ => 0 }

/-- A capability record used in examples: stride alignment 64, row count alignment 16. -/
def example_capabilities : Imx2dHardwareCapabilities :=
  { supported_source_pixel_formats := [.SEMI_PLANAR_NV12, .RGBA8888],
    supported_dest_pixel_formats := [.RGBA8888],
    min_width := 4, max_width := 8192, width_step_size := 1,
    min_height := 4, max_height := 8192, height_step_size := 1,
    stride_alignment := 64, total_row_count_alignment := 16 }

/-- A row count function used in examples with one-plane frames, where the total
number of plane rows is the frame height. -/
def example_total_num_frame_rows (info : GstVideoInfo) : Int :=
  info.height

/-- The assertions of `gst_imx_2d_assign_input_buffer_to_surface` that precede the
computation of the padding rows, collected: a video meta or a video info is
present; with more than one memory block, every plane has a memory block and it
is DMA memory; otherwise the buffer has a first memory block and it is DMA
memory. -/
def input_plane_assertions (buffer : GstBuffer) (input_video_info : Option GstVideoInfo) :
    Bool :=
  (buffer.videometa.isSome || input_video_info.isSome) &&
  (if buffer.memory.length > 1 then
    (List.range (input_num_planes buffer input_video_info)).all (fun plane_index =>
      match buffer.memory[plane_index]? with
      | some in_memory => in_memory.is_imx_dma_buffer_memory
      | none => false)
  else
    match buffer.memory.head? with
    | some in_memory => in_memory.is_imx_dma_buffer_memory
    | none => false)

/-- A video meta used in examples: two planes of a 1920x1080 NV12 frame. -/
def example_videometa : GstVideoMeta :=
  { n_planes := 2, height := 1080,
    stride := fun _ => 1920,
    offset := fun p => if p = 0 then 0 else 2073600 }

/-- A buffer used in examples: two DMA memory blocks, one per plane. -/
def example_buffer_multi : GstBuffer :=
  { memory := [⟨true, 11⟩, ⟨true, 12⟩], videometa := some example_videometa }

/-- A surface used in examples: no plane is bound yet. -/
def example_surface : Imx2dSurface :=
  { dma_buffers := fun _ => none, dma_buffer_offsets := fun _ => 0 }

/-- A surface description used in examples. -/
def example_surface_desc : Imx2dSurfaceDesc :=
  { plane_strides := fun _ => 0, num_padding_rows := 0 }

/-- A row count function used in examples: 1088 rows of luma and 544 rows of chroma. -/
def example_input_num_frame_rows (_ : GstBuffer) (_ : Option GstVideoInfo) : Int :=
  1632

/-! ## Caps -/

/-- The values that occur in the caps handled here: strings, integers and fractions,
which are fixed values, and integer ranges with a step, fraction ranges and lists
of strings, which are not. -/
inductive GValue where
  | string (s : String)
  | int (i : Int)
  | fraction (numerator denominator : Int)
  | int_range_step (min max step : Int)
  | fraction_range (min_numerator min_denominator max_numerator max_denominator : Int)
  | list (values : List String)
  deriving DecidableEq, Repr

/-- A `GstStructure`: a name and its fields in order. -/
structure GstStructure where
  name : String
  fields : List (String × GValue)
  deriving DecidableEq, Repr

/-- A `GstCaps`: the wildcard `ANY`, or a sequence of structures, each with its caps
features (no features for a structure whose features were never set); the empty
sequence is the empty caps. -/
inductive GstCaps where
  | ANY
  | structures (entries : List (GstStructure × List String))
  deriving DecidableEq, Repr

/-- Modelled from the spec: `gst_caps_is_empty` (GStreamer, not in `gstimx2dmisc.c`)
holds for the format set without any descriptor. -/
def gst_caps_is_empty : GstCaps → Bool
  | .structures [] => true
  | _ => false

/-- Modelled from the spec: `gst_caps_is_any` (GStreamer, not in `gstimx2dmisc.c`)
holds for the wildcard format set. -/
def gst_caps_is_any : GstCaps → Bool
  | .ANY => true
  | _ => false

/-- Modelled from the spec: `gst_value_is_fixed` (GStreamer, not in
`gstimx2dmisc.c`): ranges and lists are not fixed, single values are. -/
def gst_value_is_fixed : GValue → Bool
  | .string _ => true
  | .int _ => true
  | .fraction _ _ => true
  | .int_range_step _ _ _ => false
  | .fraction_range _ _ _ _ => false
  | .list _ => false

/-- Modelled from the spec: `gst_caps_is_fixed` (GStreamer, not in `gstimx2dmisc.c`)
holds for a format set of exactly one descriptor in which every field is a
single, fully resolved value. -/
def gst_caps_is_fixed : GstCaps → Bool
  | .structures [(s, _)] => s.fields.all (fun field => gst_value_is_fixed field.2)
  | _ => false

/-- Modelled from the spec: `gst_structure_get_string` (GStreamer, not in
`gstimx2dmisc.c`) gives the string held by the named field, and `NULL` (`none`)
when the structure has no such field or the field holds no string. -/
def gst_structure_get_string (s : GstStructure) (fieldname : String) : Option String :=
  match s.fields.lookup fieldname with
  | some (.string v) => some v
  | _ => none

/-- Modelled from the spec: `gst_structure_set` and `gst_structure_take_value` for
one field (GStreamer, not in `gstimx2dmisc.c`): the value of the named field is
replaced where the field stands, and a structure without the field gets it
appended. -/
def gst_structure_set_value (s : GstStructure) (fieldname : String) (value : GValue) :
    GstStructure :=
  let replaced := s.fields.map
    (fun field => if field.1 = fieldname then (field.1, value) else field)
  if (s.fields.lookup fieldname).isSome then { s with fields := replaced }
  else { s with fields := s.fields ++ [(fieldname, value)] }

/-- The string constant `nv12_amphion_8x128_str`. -/
def nv12_amphion_8x128_str : String := "NV12_AMPHION_8x128"

/-- The string constant `nv21_amphion_8x128_str`. -/
def nv21_amphion_8x128_str : String := "NV21_AMPHION_8x128"

/-- Translation of `gst_imx_remove_tile_layout_from_caps`.  `tile_layout` is the
content of the caller's output variable, `none` for a `NULL` pointer.  The outer
`Option` of the result is `none` when the assertion `s != NULL` fails; inside, the
first component is the returned caps pointer (`none` for `NULL`, the `error`
path) and the second the output variable after the call. -/
def gst_imx_remove_tile_layout_from_caps (caps : GstCaps)
    (tile_layout : Option GstImx2dTileLayout) :
    Option (Option GstCaps × Option GstImx2dTileLayout) :=
  if gst_caps_is_empty caps then some (some caps, tile_layout)
  else if gst_caps_is_any caps then some (some caps, tile_layout)
  else if !gst_caps_is_fixed caps then some (some caps, tile_layout)
  else
    match caps with
    | .structures ((s, features) :: rest) =>
      match gst_structure_get_string s "format" with
      | none => some (none, tile_layout)
      | some format_str =>
        if format_str = nv12_amphion_8x128_str then
          some (some (.structures
              ((gst_structure_set_value s "format" (.string "NV12"), features) :: rest)),
            tile_layout.map (fun _ => GstImx2dTileLayout.AMPHION_8x128))
        else if format_str = nv21_amphion_8x128_str then
          some (some (.structures
              ((gst_structure_set_value s "format" (.string "NV21"), features) :: rest)),
            tile_layout.map (fun _ => GstImx2dTileLayout.AMPHION_8x128))
        else
          some (some caps, tile_layout.map (fun _ => GstImx2dTileLayout.NONE))
    | _ => none

/-- Translation of `gst_imx_video_info_from_caps`.  `lib_video_info_from_caps`
stands for `gst_video_info_from_caps` of GStreamer, which gets the video info
and the edited caps pointer and gives its return value and the video info after
the call.  `tile_layout` and `modified_caps` are the contents of the caller's
output variables, `none` for a `NULL` pointer.  The result is the return value,
the video info and the two output variables after the call; it is `none` when
an assertion fails. -/
def gst_imx_video_info_from_caps
    (lib_video_info_from_caps : GstVideoInfo → Option GstCaps → Bool × GstVideoInfo)
    (info : GstVideoInfo) (caps : GstCaps) (tile_layout : Option GstImx2dTileLayout)
    (modified_caps : Option (Option GstCaps)) :
    Option (Bool × GstVideoInfo × Option GstImx2dTileLayout × Option (Option GstCaps)) :=
  let edited_caps := caps
  if gst_caps_is_empty edited_caps then
    some (false, info, tile_layout, modified_caps.map (fun _ => some edited_caps))
  else if gst_caps_is_any edited_caps then
    some (false, info, tile_layout, modified_caps.map (fun _ => some edited_caps))
  else if !gst_caps_is_fixed edited_caps then
    some (false, info, tile_layout, modified_caps.map (fun _ => some edited_caps))
  else
    match gst_imx_remove_tile_layout_from_caps edited_caps tile_layout with
    | none => none
    | some (edited_caps, tile_layout) =>
      let r := lib_video_info_from_caps info edited_caps
      some (r.1, r.2, tile_layout, modified_caps.map (fun _ => edited_caps))

/-! ## Caps from the hardware capabilities -/

/-- The pad directions of `GstPadDirection`. -/
inductive GstPadDirection where
  | UNKNOWN
  | SRC
  | SINK
  deriving DecidableEq, Repr

/-- The caps feature `GST_CAPS_FEATURE_MEMORY_SYSTEM_MEMORY`. -/
def GST_CAPS_FEATURE_MEMORY_SYSTEM_MEMORY : String := "memory:SystemMemory"

/-- The caps feature `GST_CAPS_FEATURE_META_GST_VIDEO_OVERLAY_COMPOSITION`. -/
def GST_CAPS_FEATURE_META_GST_VIDEO_OVERLAY_COMPOSITION : String :=
  "meta:GstVideoOverlayComposition"

/-- Modelled from the spec: `gst_video_format_to_string` (GStreamer video library,
not in `gstimx2dmisc.c`) gives the plain name of a logical format; the formats
named in `gstimx2dmisc.c` carry the name of their enumerator, and `UNKNOWN` has
no name.  Formats that `gstimx2dmisc.c` never names are outside this model. -/
def gst_video_format_to_string : GstVideoFormat → Option String
  | .RGB16 => some "RGB16"
  | .BGR16 => some "BGR16"
  | .RGB => some "RGB"
  | .BGR => some "BGR"
  | .RGBx => some "RGBx"
  | .RGBA => some "RGBA"
  | .BGRx => some "BGRx"
  | .BGRA => some "BGRA"
  | .xRGB => some "xRGB"
  | .ARGB => some "ARGB"
  | .xBGR => some "xBGR"
  | .ABGR => some "ABGR"
  | .GRAY8 => some "GRAY8"
  | .UYVY => some "UYVY"
  | .YUY2 => some "YUY2"
  | .YVYU => some "YVYU"
  | .VYUY => some "VYUY"
  | .v308 => some "v308"
  | .NV12 => some "NV12"
  | .NV21 => some "NV21"
  | .NV16 => some "NV16"
  | .NV61 => some "NV61"
  | .YV12 => some "YV12"
  | .I420 => some "I420"
  | .Y42B => some "Y42B"
  | .Y444 => some "Y444"
  | _ => none

/-- The value of `format_str` after the `switch` in the loop of
`gst_imx_2d_get_caps_from_imx2d_capabilities_full` (`none` for `NULL`).
`lib_format_to_string` stands for `gst_video_format_to_string`. -/
def caps_format_str (lib_format_to_string : GstVideoFormat → Option String)
    (supported_format : Imx2dPixelFormat) : Option String :=
  match supported_format with
  | .TILED_NV12_AMPHION_8x128 => some nv12_amphion_8x128_str
  | .TILED_NV21_AMPHION_8x128 => some nv21_amphion_8x128_str
  | _ =>
    let gst_format := gst_imx_2d_convert_to_gst_video_format supported_format
    if gst_format ≠ .UNKNOWN then lib_format_to_string gst_format else none

/-- The loop of `gst_imx_2d_get_caps_from_imx2d_capabilities_full` that fills
`format_list_gvalue`: a name that is not `NULL` is appended to the list. -/
def caps_format_list (lib_format_to_string : GstVideoFormat → Option String)
    (supported_formats : List Imx2dPixelFormat) : List String :=
  supported_formats.foldl
    (fun format_list supported_format =>
      match caps_format_str lib_format_to_string supported_format with
      | some format_str => format_list ++ [format_str]
      | none => format_list)
    []

/-- The structure built by `gst_imx_2d_get_caps_from_imx2d_capabilities_full`:
`gst_structure_new` with the frame rate range, then the three `take_value` calls. -/
def caps_structure (capabilities : Imx2dHardwareCapabilities) (format_list : List String) :
    GstStructure :=
  let width_range_gvalue := GValue.int_range_step capabilities.min_width
    capabilities.max_width capabilities.width_step_size
  let height_range_gvalue := GValue.int_range_step capabilities.min_height
    capabilities.max_height capabilities.height_step_size
  let new_structure : GstStructure :=
    { name := "video/x-raw", fields := [("framerate", .fraction_range 0 1 G_MAXINT 1)] }
  let new_structure := gst_structure_set_value new_structure "width" width_range_gvalue
  let new_structure := gst_structure_set_value new_structure "height" height_range_gvalue
  gst_structure_set_value new_structure "format" (.list format_list)

/-- Translation of `gst_imx_2d_get_caps_from_imx2d_capabilities_full`.  The result
is `none` when `g_assert_not_reached` ends the run (a direction other than sink
and src). -/
def gst_imx_2d_get_caps_from_imx2d_capabilities_full
    (lib_format_to_string : GstVideoFormat → Option String)
    (capabilities : Imx2dHardwareCapabilities) (direction : GstPadDirection)
    (add_composition_meta : Bool) : Option GstCaps :=
  let supported_formats : Option (List Imx2dPixelFormat) :=
    match direction with
    | .SINK => some capabilities.supported_source_pixel_formats
    | .SRC => some capabilities.supported_dest_pixel_formats
    | _ => none
  match supported_formats with
  | none => none
  | some supported_formats =>
    let new_structure :=
      caps_structure capabilities (caps_format_list lib_format_to_string supported_formats)
    if add_composition_meta then
      some (.structures [(new_structure, []),
        (new_structure, [GST_CAPS_FEATURE_MEMORY_SYSTEM_MEMORY,
          GST_CAPS_FEATURE_META_GST_VIDEO_OVERLAY_COMPOSITION])])
    else
      some (.structures [(new_structure, [])])

/-- Translation of `gst_imx_2d_get_caps_from_imx2d_capabilities`. -/
def gst_imx_2d_get_caps_from_imx2d_capabilities
    (lib_format_to_string : GstVideoFormat → Option String)
    (capabilities : Imx2dHardwareCapabilities) (direction : GstPadDirection) :
    Option GstCaps :=
  gst_imx_2d_get_caps_from_imx2d_capabilities_full lib_format_to_string capabilities
    direction false

/-! ## Binding an output buffer to a surface -/

/-- The first loop of `gst_imx_2d_assign_output_buffer_to_surface`, run when the
buffer has a video meta: stride and offset of every plane of the video info are
written into the video meta. -/
def assign_output_videometa (output_video_info : GstVideoInfo) (videometa : GstVideoMeta) :
    GstVideoMeta :=
  (List.range output_video_info.n_planes).foldl
    (fun (vm : GstVideoMeta) plane_index =>
      { vm with
        stride := Function.update vm.stride plane_index (output_video_info.stride plane_index)
        offset := Function.update vm.offset plane_index (output_video_info.offset plane_index) })
    videometa

/-- The second loop of `gst_imx_2d_assign_output_buffer_to_surface`: every plane of
the video info is bound to the DMA buffer at the offset of the plane. -/
def assign_output_surface (surface : Imx2dSurface) (out_dma_buffer : Nat)
    (output_video_info : GstVideoInfo) : Imx2dSurface :=
  (List.range output_video_info.n_planes).foldl
    (fun (s : Imx2dSurface) plane_index =>
      imx_2d_surface_set_dma_buffer s out_dma_buffer plane_index
        (output_video_info.offset plane_index))
    surface

/-- Translation of `gst_imx_2d_assign_output_buffer_to_surface`.  The result is the
surface and the buffer after the call, and `none` when the assertion that the
buffer has DMA memory fails; `gst_imx_has_imx_dma_buffer_memory` and
`gst_imx_get_dma_buffer_from_buffer` look at the first memory block. -/
def gst_imx_2d_assign_output_buffer_to_surface (surface : Imx2dSurface)
    (output_buffer : GstBuffer) (output_video_info : GstVideoInfo) :
    Option (Imx2dSurface × GstBuffer) :=
  match output_buffer.memory.head? with
  | none => none
  | some out_memory =>
    g_assert out_memory.is_imx_dma_buffer_memory
      (some (assign_output_surface surface out_memory.dma_buffer output_video_info,
        { output_buffer with
          videometa := output_buffer.videometa.map (assign_output_videometa output_video_info) }))

/-! ## Orientation -/

/-- The orientation methods of `GstVideoOrientationMethod` named in
`gstimx2dmisc.c`, plus a constructor for every other value of the enumeration. -/
inductive GstVideoOrientationMethod where
  | GST_VIDEO_ORIENTATION_IDENTITY
  | GST_VIDEO_ORIENTATION_90R
  | GST_VIDEO_ORIENTATION_180
  | GST_VIDEO_ORIENTATION_90L
  | GST_VIDEO_ORIENTATION_HORIZ
  | GST_VIDEO_ORIENTATION_VERT
  | GST_VIDEO_ORIENTATION_UL_LR
  | GST_VIDEO_ORIENTATION_UR_LL
  | other (code : Nat)
  deriving DecidableEq, Repr

/-- The rotations of `Imx2dRotation`. -/
inductive Imx2dRotation where
  | IMX_2D_ROTATION_NONE
  | IMX_2D_ROTATION_90
  | IMX_2D_ROTATION_180
  | IMX_2D_ROTATION_270
  | IMX_2D_ROTATION_FLIP_HORIZONTAL
  | IMX_2D_ROTATION_FLIP_VERTICAL
  | IMX_2D_ROTATION_UL_LR
  | IMX_2D_ROTATION_UR_LL
  deriving DecidableEq, Repr

/-- Translation of `gst_imx_2d_convert_from_video_orientation_method`. -/
def gst_imx_2d_convert_from_video_orientation_method :
    GstVideoOrientationMethod → Imx2dRotation
  | .GST_VIDEO_ORIENTATION_IDENTITY => .IMX_2D_ROTATION_NONE
  | .GST_VIDEO_ORIENTATION_90R => .IMX_2D_ROTATION_90
  | .GST_VIDEO_ORIENTATION_180 => .IMX_2D_ROTATION_180
  | .GST_VIDEO_ORIENTATION_90L => .IMX_2D_ROTATION_270
  | .GST_VIDEO_ORIENTATION_HORIZ => .IMX_2D_ROTATION_FLIP_HORIZONTAL
  | .GST_VIDEO_ORIENTATION_VERT => .IMX_2D_ROTATION_FLIP_VERTICAL
  | .GST_VIDEO_ORIENTATION_UL_LR => .IMX_2D_ROTATION_UL_LR
  | .GST_VIDEO_ORIENTATION_UR_LL => .IMX_2D_ROTATION_UR_LL
  | _ => .IMX_2D_ROTATION_NONE

/-- The eight orientation methods with a `case` label in
`gst_imx_2d_convert_from_video_orientation_method`. -/
def canonicalOrientations : List GstVideoOrientationMethod :=
  [.GST_VIDEO_ORIENTATION_IDENTITY, .GST_VIDEO_ORIENTATION_90R, .GST_VIDEO_ORIENTATION_180,
   .GST_VIDEO_ORIENTATION_90L, .GST_VIDEO_ORIENTATION_HORIZ, .GST_VIDEO_ORIENTATION_VERT,
   .GST_VIDEO_ORIENTATION_UL_LR, .GST_VIDEO_ORIENTATION_UR_LL]

/-- A `GstTagList`, as far as the orientation parser looks at it: the string stored
under `GST_TAG_IMAGE_ORIENTATION`, if the list has that tag. -/
structure GstTagList where
  image_orientation : Option String
  deriving DecidableEq, Repr

/-- Translation of `gst_imx_2d_orientation_from_image_direction_tag`.
`gst_tag_list_get_string` gives the string of the tag when the list has the tag.
`orientation` is the content of the caller's output variable before the call;
the result is the return value and the output variable after the call. -/
def gst_imx_2d_orientation_from_image_direction_tag (taglist : GstTagList)
    (orientation : GstVideoOrientationMethod) : Bool × GstVideoOrientationMethod :=
  match taglist.image_orientation with
  | some orientation_str =>
    if "rotate-0" = orientation_str then (true, .GST_VIDEO_ORIENTATION_IDENTITY)
    else if "rotate-90" = orientation_str then (true, .GST_VIDEO_ORIENTATION_90R)
    else if "rotate-180" = orientation_str then (true, .GST_VIDEO_ORIENTATION_180)
    else if "rotate-270" = orientation_str then (true, .GST_VIDEO_ORIENTATION_90L)
    else if "flip-rotate-0" = orientation_str then (true, .GST_VIDEO_ORIENTATION_HORIZ)
    else if "flip-rotate-90" = orientation_str then (true, .GST_VIDEO_ORIENTATION_UL_LR)
    else if "flip-rotate-180" = orientation_str then (true, .GST_VIDEO_ORIENTATION_VERT)
    else if "flip-rotate-270" = orientation_str then (true, .GST_VIDEO_ORIENTATION_UR_LL)
    else (false, orientation)
  | none => (false, orientation)

/-- The eight orientation tag strings compared in
`gst_imx_2d_orientation_from_image_direction_tag`. -/
def orientationTagTokens : List String :=
  ["rotate-0", "rotate-90", "rotate-180", "rotate-270",
   "flip-rotate-0", "flip-rotate-90", "flip-rotate-180", "flip-rotate-270"]

/-! ## Further examples -/

/-- A fixed caps used in examples: a 1920x1080 frame in the tiled NV12 format. -/
def example_caps_tiled_nv12 : GstCaps :=
  .structures [(⟨"video/x-raw",
    [("format", .string "NV12_AMPHION_8x128"), ("width", .int 1920),
      ("height", .int 1080), ("framerate", .fraction 30 1)]⟩, [])]

/-- A fixed caps used in examples: a 1920x1080 frame in the I420 format. -/
def example_caps_i420 : GstCaps :=
  .structures [(⟨"video/x-raw",
    [("format", .string "I420"), ("width", .int 1920),
      ("height", .int 1080), ("framerate", .fraction 30 1)]⟩, [])]

/-- A caps used in examples that is not fixed: the format is a list of two names. -/
def example_caps_unfixed : GstCaps :=
  .structures [(⟨"video/x-raw",
    [("format", .list ["NV12_AMPHION_8x128", "NV12"]), ("width", .int 1920),
      ("height", .int 1080)]⟩, [])]

/-- A capability record used in examples, with tiled formats and a format that has
no GStreamer counterpart among the supported source formats. -/
def example_capabilities_tiled : Imx2dHardwareCapabilities :=
  { supported_source_pixel_formats :=
      [.TILED_NV12_AMPHION_8x128, .other 99, .SEMI_PLANAR_NV12, .UNKNOWN,
       .TILED_NV21_AMPHION_8x128, .RGBA8888],
    supported_dest_pixel_formats := [.RGBA8888, .BGR565],
    min_width := 4, max_width := 8192, width_step_size := 2,
    min_height := 4, max_height := 4096, height_step_size := 1,
    stride_alignment := 64, total_row_count_alignment := 16 }

/-- A video info used in examples: the two planes of a 1920x1080 NV12 frame. -/
def example_video_info_nv12 : GstVideoInfo :=
  { width := 1920, height := 1080, n_planes := 2,
    stride := fun _ => 1920,
    offset := fun p => if p = 0 then 0 else 2088960 }

/-- A video meta used in examples with entries that differ from every video info
used in the examples. -/
def example_videometa_stale : GstVideoMeta :=
  { n_planes := 2, height := 1080, stride := fun _ => 7, offset := fun _ => 9 }

/-- A buffer used in examples: one DMA memory block and the stale video meta. -/
def example_output_buffer : GstBuffer :=
  { memory := [⟨true, 21⟩], videometa := some example_videometa_stale }

/-- A video info used in examples: as `example_video_info_nv12`, with the stride 2048
for both planes. -/
def example_video_info_nv12_wide : GstVideoInfo :=
  { example_video_info_nv12 with stride := fun _ => 2048 }

/-- A video info used in examples: a 1920x1080 RGB frame, three bytes per pixel. -/
def example_video_info_rgb : GstVideoInfo :=
  { width := 1920, height := 1080, n_planes := 1,
    stride := fun _ => 5760, offset := fun _ => 0 }

/-- A capability record used in examples: stride alignment 7, which is no power of
two. -/
def example_capabilities_odd : Imx2dHardwareCapabilities :=
  { example_capabilities with stride_alignment := 7 }

/-! ## Definitions for the row count of a layout and for reading format names -/

/-- Modelled from the spec: `gst_imx_video_utils_calculate_total_num_frame_rows`
(`gstimxvideoutils.c` of this plugin, not among the sources at hand), called
without a buffer, gives the total logical plane-row count of the layout, the
number of rows that the padding rows are counted on top of; for an output layout
that carries no padding rows yet this is its logical height (a logical height of
1080 and a row count alignment of 16 give the total row count 1088). -/
def gst_imx_video_utils_calculate_total_num_frame_rows (video_info : GstVideoInfo) : Int :=
  video_info.height

/-- The 28 hardware formats with a `case` label in
`gst_imx_2d_convert_to_gst_video_format`, the two tiled formats included. -/
def hardwareTableFormats : List Imx2dPixelFormat :=
  [.RGB565, .BGR565, .RGB888, .BGR888, .RGBX8888, .RGBA8888, .BGRX8888, .BGRA8888,
   .XRGB8888, .ARGB8888, .XBGR8888, .ABGR8888, .GRAY8,
   .PACKED_YUV422_UYVY, .PACKED_YUV422_YUYV, .PACKED_YUV422_YVYU, .PACKED_YUV422_VYUY,
   .PACKED_YUV444,
   .SEMI_PLANAR_NV12, .SEMI_PLANAR_NV21, .SEMI_PLANAR_NV16, .SEMI_PLANAR_NV61,
   .FULLY_PLANAR_YV12, .FULLY_PLANAR_I420, .FULLY_PLANAR_Y42B, .FULLY_PLANAR_Y444,
   .TILED_NV12_AMPHION_8x128, .TILED_NV21_AMPHION_8x128]

/-- Modelled from the spec: `gst_video_format_from_string` (GStreamer video library,
not in `gstimx2dmisc.c`), by which `gst_video_info_from_caps` reads the format
name of a caps, is the inverse of `gst_video_format_to_string` on the plain
logical-format names; a string that is no format name gives `UNKNOWN`. -/
def gst_video_format_from_string (format : String) : GstVideoFormat :=
  match format with
  | "RGB16" => .RGB16
  | "BGR16" => .BGR16
  | "RGB" => .RGB
  | "BGR" => .BGR
  | "RGBx" => .RGBx
  | "RGBA" => .RGBA
  | "BGRx" => .BGRx
  | "BGRA" => .BGRA
  | "xRGB" => .xRGB
  | "ARGB" => .ARGB
  | "xBGR" => .xBGR
  | "ABGR" => .ABGR
  | "GRAY8" => .GRAY8
  | "UYVY" => .UYVY
  | "YUY2" => .YUY2
  | "YVYU" => .YVYU
  | "VYUY" => .VYUY
  | "v308" => .v308
  | "NV12" => .NV12
  | "NV21" => .NV21
  | "NV16" => .NV16
  | "NV61" => .NV61
  | "YV12" => .YV12
  | "I420" => .I420
  | "Y42B" => .Y42B
  | "Y444" => .Y444
  | _ => .UNKNOWN

/-- A fixed caps used in examples: a 1920x1080 frame in the tiled NV21 format. -/
def example_caps_tiled_nv21 : GstCaps :=
  .structures [(⟨"video/x-raw",
    [("format", .string "NV21_AMPHION_8x128"), ("width", .int 1920),
      ("height", .int 1080), ("framerate", .fraction 30 1)]⟩, [])]

/-! ## Properties of the pixel format translation -/

/-- The formats listed in `genericTableFormats` are exactly those for which the
generic table has an entry other than `UNKNOWN`. -/
theorem mem_genericTableFormats_iff (f : GstVideoFormat) :
    f ∈ genericTableFormats ↔ convert_from_gst_video_format_generic f ≠ .UNKNOWN := by
  cases f <;> simp [genericTableFormats, convert_from_gst_video_format_generic]

/-- C1: for each of the 26 formats of the generic table and for every tile layout
argument (a `NULL` pointer, `NONE` or `AMPHION_8x128`), translating the format to
the hardware format and back returns the format. -/
theorem convert_to_from_gst_video_format_roundtrip (f : GstVideoFormat)
    (hf : f ∈ genericTableFormats) (t : Option GstImx2dTileLayout) :
    genericTableFormats.length = 26 ∧
    gst_imx_2d_convert_to_gst_video_format (gst_imx_2d_convert_from_gst_video_format f t) = f := by
  refine ⟨rfl, ?_⟩
  cases f <;> simp [genericTableFormats] at hf <;> (rcases t with _ | _ | _) <;> rfl

/-- Instance of C1 at NV12 with the Amphion tile layout: the tiled hardware format
maps back to plain NV12. -/
theorem convert_to_from_gst_video_format_roundtrip_witness :
    GstVideoFormat.NV12 ∈ genericTableFormats ∧
    genericTableFormats.length = 26 ∧
    gst_imx_2d_convert_to_gst_video_format
      (gst_imx_2d_convert_from_gst_video_format .NV12 (some .AMPHION_8x128)) = .NV12 :=
  ⟨by decide,
   convert_to_from_gst_video_format_roundtrip .NV12 (by decide) (some .AMPHION_8x128)⟩

/-- C10: with the Amphion tile layout NV12 and NV21 give the two tiled hardware
formats; every other format with the Amphion layout, and every format with no tile
layout or the layout `NONE`, gives the entry of the generic table; a format outside
the generic table gives `UNKNOWN` whatever the tile layout. -/
theorem convert_from_gst_video_format_cases :
    gst_imx_2d_convert_from_gst_video_format .NV12 (some .AMPHION_8x128)
      = .TILED_NV12_AMPHION_8x128 ∧
    gst_imx_2d_convert_from_gst_video_format .NV21 (some .AMPHION_8x128)
      = .TILED_NV21_AMPHION_8x128 ∧
    (∀ f : GstVideoFormat, f ≠ .NV12 → f ≠ .NV21 →
      gst_imx_2d_convert_from_gst_video_format f (some .AMPHION_8x128)
        = convert_from_gst_video_format_generic f) ∧
    (∀ f : GstVideoFormat,
      gst_imx_2d_convert_from_gst_video_format f none
        = convert_from_gst_video_format_generic f ∧
      gst_imx_2d_convert_from_gst_video_format f (some .NONE)
        = convert_from_gst_video_format_generic f) ∧
    (∀ (f : GstVideoFormat) (t : Option GstImx2dTileLayout), f ∉ genericTableFormats →
      gst_imx_2d_convert_from_gst_video_format f t = .UNKNOWN) := by
  refine ⟨rfl, rfl, ?_, ?_, ?_⟩
  · intro f h12 h21
    cases f <;> first | rfl | exact absurd rfl h12 | exact absurd rfl h21
  · intro f
    exact ⟨rfl, rfl⟩
  · intro f t hf
    cases f <;> simp [genericTableFormats] at hf <;> (rcases t with _ | _ | _) <;> rfl

/-- Instances of C10: a format outside the generic table, and a table format other
than NV12 and NV21 under the Amphion layout. -/
theorem convert_from_gst_video_format_cases_witness :
    GstVideoFormat.other 7 ∉ genericTableFormats ∧
    gst_imx_2d_convert_from_gst_video_format (.other 7) (some .AMPHION_8x128) = .UNKNOWN ∧
    gst_imx_2d_convert_from_gst_video_format .I420 (some .AMPHION_8x128)
      = .FULLY_PLANAR_I420 :=
  ⟨by decide,
   convert_from_gst_video_format_cases.2.2.2.2 (.other 7) (some .AMPHION_8x128) (by decide),
   convert_from_gst_video_format_cases.2.2.1 .I420 (by decide) (by decide)⟩

/-! ## Properties of the input buffer structure check -/

/-- C4: the structure check accepts a buffer exactly when its number of memory
blocks is 1 or equals the number of planes; a buffer of two blocks is rejected for
three planes. -/
theorem check_input_buffer_structure_iff (input_buffer : GstBuffer) (num_planes : Nat) :
    (gst_imx_2d_check_input_buffer_structure input_buffer num_planes = true ↔
      input_buffer.memory.length = 1 ∨ input_buffer.memory.length = num_planes) ∧
    gst_imx_2d_check_input_buffer_structure
      { memory := [⟨true, 0⟩, ⟨true, 1⟩], videometa := none } 3 = false := by
  refine ⟨?_, by decide⟩
  unfold gst_imx_2d_check_input_buffer_structure
  by_cases h1 : input_buffer.memory.length = 1
  · simp [h1]
  · by_cases h2 : input_buffer.memory.length = num_planes
    · simp [h2]
    · simp [h1, h2]

/-- Every block count occurs as the number of memory blocks of a buffer, so the
statement over buffers covers all pairs of block count and plane count. -/
theorem exists_buffer_with_block_count (num_memory_blocks : Nat) :
    ∃ b : GstBuffer, b.memory.length = num_memory_blocks :=
  ⟨{ memory := List.replicate num_memory_blocks ⟨true, 0⟩, videometa := none }, by simp⟩

/-! ## Properties of the letterbox computation -/

/-- Conversion to `guint` keeps a value that is in the `guint` range. -/
theorem toGuint_of_range (z : Int) (h0 : 0 ≤ z) (h1 : z < 4294967296) :
    (toGuint z : Int) = z := by
  unfold toGuint; omega

/-- Conversion to `gint` keeps a value that is in the `gint` range. -/
theorem toGint_of_range (z : Int) (h0 : -2147483648 ≤ z) (h1 : z < 2147483648) :
    toGint z = z := by
  unfold toGint; omega

/-- The margin pair computed from an outer extent `w` and an inner extent `iw ≤ w`:
the first margin is half of the difference, rounded down, the second is the rest;
no conversion changes a value when `w` fits a `gint`. -/
theorem margin_split (w iw : Nat) (hw : (w : Int) ≤ 2147483647) (hi : iw ≤ w) :
    ∃ l r : Int,
      toGint ((toGuint ((w : Int) - iw) / 2 : Nat) : Int) = l ∧
      toGint (toGuint ((toGuint ((w : Int) - iw) : Int) - l)) = r ∧
      0 ≤ l ∧ 0 ≤ r ∧ l + r + iw = w ∧ l = ((w : Int) - iw) / 2 := by
  have hc : (toGuint ((w : Int) - iw) : Int) = (w : Int) - iw :=
    toGuint_of_range _ (by omega) (by omega)
  have hl : toGint ((toGuint ((w : Int) - iw) / 2 : Nat) : Int) = ((w : Int) - iw) / 2 := by
    rw [toGint_of_range _ (by omega) (by omega)]
    omega
  refine ⟨((w : Int) - iw) / 2, ((w : Int) - iw) - ((w : Int) - iw) / 2, hl, ?_, ?_, ?_, ?_, rfl⟩
  · rw [hc, toGuint_of_range _ (by omega) (by omega), toGint_of_range _ (by omega) (by omega)]
  · omega
  · omega
  · omega

/-- The clamped inner extents do not exceed the outer extents. -/
theorem letterbox_inner_le (lib : GstLib) (outer : Imx2dRegion) (dn dd : Nat) :
    (letterbox_inner lib outer dn dd).1 ≤ letterbox_outer_w outer ∧
    (letterbox_inner lib outer dn dd).2 ≤ letterbox_outer_h outer := by
  simp [letterbox_inner]

/-- The invariants of the margin and the inner region for the part of the letterbox
computation that follows the display ratio. -/
theorem letterbox_fit_spec (lib : GstLib) (outer : Imx2dRegion) (dn dd : Nat)
    (hx : outer.x1 ≤ outer.x2) (hy : outer.y1 ≤ outer.y2)
    (hxr : outer.x2 - outer.x1 ≤ G_MAXINT) (hyr : outer.y2 - outer.y1 ≤ G_MAXINT) :
    ((letterbox_fit lib outer dn dd).1.left_margin
        + (letterbox_fit lib outer dn dd).1.right_margin
        + ((letterbox_fit lib outer dn dd).2.x2 - (letterbox_fit lib outer dn dd).2.x1)
      = outer.x2 - outer.x1 ∧
     (letterbox_fit lib outer dn dd).1.top_margin
        + (letterbox_fit lib outer dn dd).1.bottom_margin
        + ((letterbox_fit lib outer dn dd).2.y2 - (letterbox_fit lib outer dn dd).2.y1)
      = outer.y2 - outer.y1) ∧
    (0 ≤ (letterbox_fit lib outer dn dd).1.left_margin ∧
     0 ≤ (letterbox_fit lib outer dn dd).1.right_margin ∧
     0 ≤ (letterbox_fit lib outer dn dd).1.top_margin ∧
     0 ≤ (letterbox_fit lib outer dn dd).1.bottom_margin) ∧
    (outer.x1 ≤ (letterbox_fit lib outer dn dd).2.x1 ∧
     (letterbox_fit lib outer dn dd).2.x1 ≤ (letterbox_fit lib outer dn dd).2.x2 ∧
     (letterbox_fit lib outer dn dd).2.x2 ≤ outer.x2) ∧
    (outer.y1 ≤ (letterbox_fit lib outer dn dd).2.y1 ∧
     (letterbox_fit lib outer dn dd).2.y1 ≤ (letterbox_fit lib outer dn dd).2.y2 ∧
     (letterbox_fit lib outer dn dd).2.y2 ≤ outer.y2) := by
  have hW : (letterbox_outer_w outer : Int) = outer.x2 - outer.x1 := by
    unfold letterbox_outer_w
    exact toGuint_of_range _ (by omega) (by unfold G_MAXINT at hxr; omega)
  have hH : (letterbox_outer_h outer : Int) = outer.y2 - outer.y1 := by
    unfold letterbox_outer_h
    exact toGuint_of_range _ (by omega) (by unfold G_MAXINT at hyr; omega)
  obtain ⟨hiw, hih⟩ := letterbox_inner_le lib outer dn dd
  obtain ⟨l, r, hl, hr, hl0, hr0, hlr, -⟩ :=
    margin_split (letterbox_outer_w outer) (letterbox_inner lib outer dn dd).1
      (by unfold G_MAXINT at hxr; omega) hiw
  obtain ⟨t, b, ht, hb, ht0, hb0, htb, -⟩ :=
    margin_split (letterbox_outer_h outer) (letterbox_inner lib outer dn dd).2
      (by unfold G_MAXINT at hyr; omega) hih
  simp only [letterbox_fit, hl, hr, ht, hb]
  have hiw' : ((letterbox_inner lib outer dn dd).1 : Int) ≥ 0 := by omega
  have hih' : ((letterbox_inner lib outer dn dd).2 : Int) ≥ 0 := by omega
  refine ⟨⟨by omega, by omega⟩, ⟨hl0, hr0, ht0, hb0⟩, ⟨by omega, by omega, by omega⟩,
    ⟨by omega, by omega, by omega⟩⟩

/-- The result on the paths through `set_zero_margin`: the margin is zero and the
inner region is the one the caller passed in. -/
theorem letterbox_set_zero_margin_paths (lib : GstLib) (inner0 outer : Imx2dRegion)
    (transposed : Bool) (video_width video_height par_n par_d : Nat)
    (h : video_width = 0 ∨ video_height = 0 ∨
      lib.gst_video_calculate_display_ratio video_width video_height par_n par_d 1 1 = none) :
    gst_imx_2d_canvas_calculate_letterbox_margin lib inner0 outer transposed
      video_width video_height par_n par_d = (set_zero_margin, inner0) := by
  unfold gst_imx_2d_canvas_calculate_letterbox_margin
  by_cases h0 : video_width = 0 ∨ video_height = 0
  · simp [h0]
  · have h2 : lib.gst_video_calculate_display_ratio video_width video_height par_n par_d 1 1
        = none := by
      rcases h with h | h | h
      · exact absurd (Or.inl h) h0
      · exact absurd (Or.inr h) h0
      · exact h
    simp [h0, h2]

/-- C5: for an outer rectangle with `x2 ≥ x1`, `y2 ≥ y1` whose extents fit a C
`int`, and a video of nonzero size whose display ratio the library computes, the
margins and the inner rectangle satisfy `left + right + inner_w = outer_w` and
`top + bottom + inner_h = outer_h`, the four margins are not negative, and the
inner rectangle is a valid rectangle inside the outer one.  This holds for every
behaviour of the two library functions. -/
theorem letterbox_margin_invariants (lib : GstLib) (inner0 outer : Imx2dRegion)
    (transposed : Bool) (video_width video_height par_n par_d : Nat) (dar : Nat × Nat)
    (hx : outer.x1 ≤ outer.x2) (hy : outer.y1 ≤ outer.y2)
    (hxr : outer.x2 - outer.x1 ≤ G_MAXINT) (hyr : outer.y2 - outer.y1 ≤ G_MAXINT)
    (hw : video_width ≠ 0) (hh : video_height ≠ 0)
    (hdar : lib.gst_video_calculate_display_ratio video_width video_height par_n par_d 1 1
      = some dar) :
    ∃ (margin : Imx2dBlitMargin) (inner : Imx2dRegion),
      gst_imx_2d_canvas_calculate_letterbox_margin lib inner0 outer transposed
        video_width video_height par_n par_d = (margin, inner) ∧
      (margin.left_margin + margin.right_margin + (inner.x2 - inner.x1)
          = outer.x2 - outer.x1 ∧
       margin.top_margin + margin.bottom_margin + (inner.y2 - inner.y1)
          = outer.y2 - outer.y1) ∧
      (0 ≤ margin.left_margin ∧ 0 ≤ margin.right_margin ∧
       0 ≤ margin.top_margin ∧ 0 ≤ margin.bottom_margin) ∧
      (outer.x1 ≤ inner.x1 ∧ inner.x1 ≤ inner.x2 ∧ inner.x2 ≤ outer.x2) ∧
      (outer.y1 ≤ inner.y1 ∧ inner.y1 ≤ inner.y2 ∧ inner.y2 ≤ outer.y2) := by
  have h0 : ¬ (video_width = 0 ∨ video_height = 0) := by
    rintro (h | h)
    · exact hw h
    · exact hh h
  obtain ⟨dn, dd⟩ := dar
  cases transposed
  · refine ⟨(letterbox_fit lib outer dn dd).1, (letterbox_fit lib outer dn dd).2, ?_,
      letterbox_fit_spec lib outer dn dd hx hy hxr hyr⟩
    simp [gst_imx_2d_canvas_calculate_letterbox_margin, h0, hdar]
  · refine ⟨(letterbox_fit lib outer dd dn).1, (letterbox_fit lib outer dd dn).2, ?_,
      letterbox_fit_spec lib outer dd dn hx hy hxr hyr⟩
    simp [gst_imx_2d_canvas_calculate_letterbox_margin, h0, hdar]

/-- Instance of C5: a 720x480 video with square pixels in a 1920x1080 outer
rectangle, with the library functions as modelled. -/
theorem letterbox_margin_invariants_witness :
    ∃ (margin : Imx2dBlitMargin) (inner : Imx2dRegion),
      gst_imx_2d_canvas_calculate_letterbox_margin gstreamer ⟨0, 0, 0, 0⟩ ⟨0, 0, 1920, 1080⟩
        false 720 480 1 1 = (margin, inner) ∧
      (margin.left_margin + margin.right_margin + (inner.x2 - inner.x1) = 1920 - 0 ∧
       margin.top_margin + margin.bottom_margin + (inner.y2 - inner.y1) = 1080 - 0) ∧
      (0 ≤ margin.left_margin ∧ 0 ≤ margin.right_margin ∧
       0 ≤ margin.top_margin ∧ 0 ≤ margin.bottom_margin) ∧
      ((0 : Int) ≤ inner.x1 ∧ inner.x1 ≤ inner.x2 ∧ inner.x2 ≤ 1920) ∧
      ((0 : Int) ≤ inner.y1 ∧ inner.y1 ≤ inner.y2 ∧ inner.y2 ≤ 1080) :=
  letterbox_margin_invariants gstreamer ⟨0, 0, 0, 0⟩ ⟨0, 0, 1920, 1080⟩ false 720 480 1 1 (3, 2)
    (by decide) (by decide) (by decide) (by decide) (by decide) (by decide) (by decide)

/-- C6: evaluation at a video of width 0.  The margin is zero, but the inner region
is the one the caller passed in, `{0, 0, 640, 480}`, not the outer region
`{0, 0, 1920, 1080}`: the `set_zero_margin` path does not write `inner_region`. -/
theorem letterbox_zero_video_inner_region_unwritten :
    gst_imx_2d_canvas_calculate_letterbox_margin gstreamer ⟨0, 0, 640, 480⟩
        ⟨0, 0, 1920, 1080⟩ false 0 480 1 1
      = (set_zero_margin, ⟨0, 0, 640, 480⟩) ∧
    (gst_imx_2d_canvas_calculate_letterbox_margin gstreamer ⟨0, 0, 640, 480⟩
        ⟨0, 0, 1920, 1080⟩ false 0 480 1 1).2 ≠ ⟨0, 0, 1920, 1080⟩ := by
  decide

/-- C7: evaluation at an outer region of height 0 (`{0, 0, 1920, 0}`) with a
720x480 video.  The first scaled division is called with the divisor `outer_h = 0`,
and the margin is `960` left and right, not zero. -/
theorem letterbox_zero_height_outer_region_divides_by_zero :
    letterbox_scale_denominators gstreamer ⟨0, 0, 1920, 0⟩ false 720 480 1 1 = [0, 2] ∧
    gst_imx_2d_canvas_calculate_letterbox_margin gstreamer ⟨0, 0, 0, 0⟩
        ⟨0, 0, 1920, 0⟩ false 720 480 1 1
      = (⟨960, 0, 960, 0⟩, ⟨960, 0, 960, 0⟩) := by
  decide

/-! ## Properties of the output alignment -/

/-- The value of `plane_row_remainder` for a row count `n ≥ 0` and an alignment
`a ≥ 1`: `n + plane_row_remainder` is the least multiple of `a` that is at least `n`. -/
theorem align_plane_row_remainder_spec (n a : Int) (hn : 0 ≤ n) (ha : 1 ≤ a) :
    0 ≤ align_plane_row_remainder n a ∧ align_plane_row_remainder n a < a ∧
    a ∣ n + align_plane_row_remainder n a ∧
    (∀ m : Int, a ∣ m → n ≤ m → n + align_plane_row_remainder n a ≤ m) ∧
    (align_plane_row_remainder n a = 0 ↔ a ∣ n) := by
  unfold align_plane_row_remainder
  rw [Int.tdiv_eq_ediv (by omega) (by omega)]
  have h1 : (n + (a - 1)) % a + (n + (a - 1)) / a * a = n + (a - 1) := Int.emod_add_ediv' _ _
  have h2 : 0 ≤ (n + (a - 1)) % a := Int.emod_nonneg _ (by omega)
  have h3 : (n + (a - 1)) % a < a := Int.emod_lt_of_pos _ (by omega)
  generalize (n + (a - 1)) % a = rem at h1 h2 h3
  generalize (n + (a - 1)) / a = q at h1
  have hdvd : a ∣ n + (q * a - n) := ⟨q, by ring⟩
  refine ⟨by linarith, by linarith, hdvd, ?_, ?_⟩
  · rintro m ⟨k, rfl⟩ hk
    have hlt : q * a < (k + 1) * a := by nlinarith
    have hq : q < k + 1 := lt_of_mul_lt_mul_right hlt (by omega)
    have hqk : q ≤ k := by omega
    nlinarith
  · constructor
    · intro h0
      exact ⟨q, by linarith⟩
    · intro hn'
      have hp : a ∣ q * a - n := (Int.dvd_add_right hn').mp hdvd
      by_contra hne
      have hpos : 0 < q * a - n := by
        have : 0 ≤ q * a - n := by linarith
        omega
      have := Int.le_of_dvd hpos hp
      linarith

/-- C8: the height of the video info after `gst_imx_2d_align_output_video_info` is
the height before the call, for every behaviour of `gst_video_info_align` and
whatever padding was computed; the function itself never writes the width, so
the width is also the one before the call as soon as `gst_video_info_align`
leaves the width as it is. -/
theorem align_output_keeps_frame_size
    (total_num_frame_rows : GstVideoInfo → Int)
    (lib_align : GstVideoInfo → GstVideoAlignment → GstVideoInfo)
    (info : GstVideoInfo) (num_padding_rows : Option Int)
    (caps : Imx2dHardwareCapabilities) :
    (gst_imx_2d_align_output_video_info total_num_frame_rows lib_align info
        num_padding_rows caps).1.height = info.height ∧
    ((∀ (i : GstVideoInfo) (va : GstVideoAlignment), (lib_align i va).width = i.width) →
      (gst_imx_2d_align_output_video_info total_num_frame_rows lib_align info
        num_padding_rows caps).1.width = info.width) := by
  refine ⟨rfl, ?_⟩
  intro hwidth
  exact hwidth _ _

/-- Instance of C8: a 1920x1080 frame, row count alignment 16, with
`gst_video_info_align` as modelled; the padded height 1088 is reset to 1080. -/
theorem align_output_keeps_frame_size_witness :
    (gst_video_info_align example_video_info
        (align_video_alignment 1 64 8)).height = 1088 ∧
    (gst_imx_2d_align_output_video_info example_total_num_frame_rows gst_video_info_align
        example_video_info (some 0) example_capabilities).1.height = 1080 ∧
    (gst_imx_2d_align_output_video_info example_total_num_frame_rows gst_video_info_align
        example_video_info (some 0) example_capabilities).1.width = 1920 :=
  ⟨by decide,
   (align_output_keeps_frame_size example_total_num_frame_rows gst_video_info_align
      example_video_info (some 0) example_capabilities).1,
   (align_output_keeps_frame_size example_total_num_frame_rows gst_video_info_align
      example_video_info (some 0) example_capabilities).2 (fun _ _ => rfl)⟩

/-- While `n + (a - 1)` does not exceed `G_MAXINT` no step of the `gint` evaluation
of `plane_row_remainder` leaves the `gint` range, and the evaluation has the value
of the expression over the integers. -/
theorem align_plane_row_remainder_gint_eq (n a : Int) (hn : 0 ≤ n) (ha : 1 ≤ a)
    (hsum : n + (a - 1) ≤ G_MAXINT) :
    align_plane_row_remainder_gint n a = align_plane_row_remainder n a := by
  obtain ⟨h0, hlt, -⟩ := align_plane_row_remainder_spec n a hn ha
  unfold G_MAXINT at hsum
  unfold align_plane_row_remainder at h0 hlt
  unfold align_plane_row_remainder_gint align_plane_row_remainder
  rw [toGint_of_range (a - 1) (by omega) (by omega),
    toGint_of_range (n + (a - 1)) (by omega) (by omega)]
  generalize Int.tdiv (n + (a - 1)) a * a = qa at h0 hlt
  rw [toGint_of_range qa (by omega) (by omega),
    toGint_of_range (qa - n) (by omega) (by omega)]

/-- Beyond that range the bound on the padding is lost: for 2147483640 rows and an
alignment of 16 the sum `n + 15` exceeds `G_MAXINT`, and the two's complement
evaluation yields 24, which is not below 16. -/
theorem align_plane_row_remainder_gint_beyond_range :
    ¬ ((2147483640 : Int) + (16 - 1) ≤ G_MAXINT) ∧
    align_plane_row_remainder_gint 2147483640 16 = 24 := by
  decide

/-- C9: for a total plane row count `n ≥ 0` and a row count alignment `a ≥ 1`, both
C `int`s with `n + (a - 1)` not above `G_MAXINT` (so that the addition of line 716
stays inside the `gint` range), the number of padding rows that
`gst_imx_2d_align_output_video_info` stores is `pad` with `n + pad` the least
multiple of `a` that is at least `n`; so `0 ≤ pad < a`, `(n + pad) mod a = 0`, and
`pad = 0` exactly when `a` divides `n`. The alignment `va` handed to
`gst_video_info_align` is the one built by the function, and its `padding_bottom`
is the same value. In this range `pad` is also the value of the 32 bit evaluation
of the expression. -/
theorem align_output_num_padding_rows
    (total_num_frame_rows : GstVideoInfo → Int)
    (lib_align : GstVideoInfo → GstVideoAlignment → GstVideoInfo)
    (info : GstVideoInfo) (v : Int) (caps : Imx2dHardwareCapabilities)
    (hn : 0 ≤ total_num_frame_rows info)
    (ha : 1 ≤ caps.total_row_count_alignment)
    (hmax : caps.total_row_count_alignment ≤ G_MAXINT)
    (hsum : total_num_frame_rows info + (caps.total_row_count_alignment - 1) ≤ G_MAXINT) :
    ∃ (pad : Int) (va : GstVideoAlignment),
      gst_imx_2d_align_output_video_info total_num_frame_rows lib_align info (some v) caps
        = ({ lib_align info va with height := info.height }, some pad) ∧
      va = align_video_alignment info.n_planes caps.stride_alignment pad ∧
      (va.padding_bottom : Int) = pad ∧
      (caps.total_row_count_alignment ∣ total_num_frame_rows info + pad ∧
        ∀ m : Int, caps.total_row_count_alignment ∣ m → total_num_frame_rows info ≤ m →
          total_num_frame_rows info + pad ≤ m) ∧
      0 ≤ pad ∧ pad < caps.total_row_count_alignment ∧
      (total_num_frame_rows info + pad) % caps.total_row_count_alignment = 0 ∧
      (pad = 0 ↔ total_num_frame_rows info % caps.total_row_count_alignment = 0) ∧
      align_plane_row_remainder_gint (total_num_frame_rows info)
        caps.total_row_count_alignment = pad := by
  obtain ⟨h0, hlt, hdvd, hmin, hzero⟩ :=
    align_plane_row_remainder_spec (total_num_frame_rows info)
      caps.total_row_count_alignment hn ha
  refine ⟨align_plane_row_remainder (total_num_frame_rows info) caps.total_row_count_alignment,
    align_video_alignment info.n_planes caps.stride_alignment
      (align_plane_row_remainder (total_num_frame_rows info) caps.total_row_count_alignment),
    rfl, rfl, ?_, ⟨hdvd, hmin⟩, h0, hlt, Int.emod_eq_zero_of_dvd hdvd, ?_,
    align_plane_row_remainder_gint_eq _ _ hn ha hsum⟩
  · show (toGuint _ : Int) = _
    exact toGuint_of_range _ h0 (by unfold G_MAXINT at hmax; omega)
  · rw [hzero]
    exact ⟨Int.emod_eq_zero_of_dvd, Int.dvd_of_emod_eq_zero⟩

/-- Instance of C9: 1080 plane rows and row count alignment 16, with `1080 + 15`
inside the `gint` range, give 8 padding rows. -/
theorem align_output_num_padding_rows_witness :
    (gst_imx_2d_align_output_video_info example_total_num_frame_rows gst_video_info_align
        example_video_info (some 0) example_capabilities).2 = some 8 ∧
    (0 : Int) ≤ example_total_num_frame_rows example_video_info ∧
    1 ≤ example_capabilities.total_row_count_alignment ∧
    example_capabilities.total_row_count_alignment ≤ G_MAXINT ∧
    example_total_num_frame_rows example_video_info
      + (example_capabilities.total_row_count_alignment - 1) ≤ G_MAXINT ∧
    ∃ (pad : Int) (va : GstVideoAlignment),
      gst_imx_2d_align_output_video_info example_total_num_frame_rows gst_video_info_align
          example_video_info (some 0) example_capabilities
        = ({ gst_video_info_align example_video_info va with height := 1080 }, some pad) ∧
      va = align_video_alignment 1 64 pad ∧
      (va.padding_bottom : Int) = pad ∧
      ((16 : Int) ∣ 1080 + pad ∧ ∀ m : Int, (16 : Int) ∣ m → 1080 ≤ m → 1080 + pad ≤ m) ∧
      0 ≤ pad ∧ pad < 16 ∧ (1080 + pad) % 16 = 0 ∧ (pad = 0 ↔ (1080 : Int) % 16 = 0) ∧
      align_plane_row_remainder_gint 1080 16 = pad :=
  ⟨by decide, by decide, by decide, by decide, by decide,
   align_output_num_padding_rows example_total_num_frame_rows gst_video_info_align
     example_video_info 0 example_capabilities (by decide) (by decide) (by decide)
     (by decide)⟩

/-! ## Properties of the input binder -/

/-- One more iteration of a plane loop. -/
theorem for_plane_index_succ {σ : Type} (n : Nat) (body : Nat → σ → Option σ) (s : σ) :
    for_plane_index (n + 1) body s = (for_plane_index n body s).bind (body n) := by
  unfold for_plane_index
  rw [List.range_succ, List.foldlM_append]
  cases h : List.foldlM (fun st plane_index => body plane_index st) s (List.range n) with
  | none => rfl
  | some mid =>
    simp only [Option.bind_eq_bind, Option.some_bind, Option.bind, List.foldlM]
    cases body n mid <;> rfl

/-- The state after a completed plane loop of the multi-block case. -/
theorem multi_loop_some (buffer : GstBuffer) (info : Option GstVideoInfo)
    (n : Nat) (s0 out : Imx2dSurface × Imx2dSurfaceDesc)
    (h : for_plane_index n (assign_input_plane_multi buffer info) s0 = some out) :
    (∀ p, p < n →
      (∃ m, buffer.memory[p]? = some m ∧ m.is_imx_dma_buffer_memory = true ∧
        out.1.dma_buffers p = some m.dma_buffer) ∧
      out.2.plane_strides p = input_plane_stride buffer info p ∧
      out.1.dma_buffer_offsets p = 0) ∧
    (∀ p, n ≤ p → out.2.plane_strides p = s0.2.plane_strides p ∧
      out.1.dma_buffer_offsets p = s0.1.dma_buffer_offsets p ∧
      out.1.dma_buffers p = s0.1.dma_buffers p) ∧
    out.2.num_padding_rows = s0.2.num_padding_rows := by
  induction n generalizing out with
  | zero =>
    simp [for_plane_index] at h
    subst h
    exact ⟨fun p hp => absurd hp (Nat.not_lt_zero p), fun p _ => ⟨rfl, rfl, rfl⟩, rfl⟩
  | succ n ih =>
    rw [for_plane_index_succ] at h
    cases hmid : for_plane_index n (assign_input_plane_multi buffer info) s0 with
    | none => rw [hmid] at h; simp at h
    | some mid =>
      rw [hmid] at h
      simp only [Option.some_bind] at h
      obtain ⟨ih1, ih2, ih3⟩ := ih mid hmid
      unfold assign_input_plane_multi at h
      cases hm : buffer.memory[n]? with
      | none => rw [hm] at h; simp at h
      | some m =>
        rw [hm] at h
        cases hd : m.is_imx_dma_buffer_memory with
        | false => simp [g_assert, hd] at h
        | true =>
          simp only [g_assert, hd, if_true, Option.some.injEq] at h
          subst h
          refine ⟨?_, ?_, ?_⟩
          · intro p hp
            by_cases hpn : p = n
            · subst hpn
              refine ⟨⟨m, hm, hd, ?_⟩, ?_, ?_⟩ <;>
                simp [imx_2d_surface_set_dma_buffer]
            · have hp' : p < n := by omega
              obtain ⟨⟨m', hm', hd', hb'⟩, hs', ho'⟩ := ih1 p hp'
              refine ⟨⟨m', hm', hd', ?_⟩, ?_, ?_⟩ <;>
                simp [imx_2d_surface_set_dma_buffer, Function.update_noteq hpn, *]
          · intro p hp
            have hpn : p ≠ n := by omega
            obtain ⟨hs', ho', hb'⟩ := ih2 p (by omega)
            refine ⟨?_, ?_, ?_⟩ <;>
              simp [imx_2d_surface_set_dma_buffer, Function.update_noteq hpn, *]
          · exact ih3

/-- The plane loop of the multi-block case completes when every plane has a DMA
memory block. -/
theorem multi_loop_isSome (buffer : GstBuffer) (info : Option GstVideoInfo)
    (n : Nat) (s0 : Imx2dSurface × Imx2dSurfaceDesc)
    (h : ∀ p, p < n → ∃ m, buffer.memory[p]? = some m ∧ m.is_imx_dma_buffer_memory = true) :
    ∃ out, for_plane_index n (assign_input_plane_multi buffer info) s0 = some out := by
  induction n with
  | zero => exact ⟨s0, by simp [for_plane_index]⟩
  | succ n ih =>
    obtain ⟨mid, hmid⟩ := ih (fun p hp => h p (by omega))
    obtain ⟨m, hm, hd⟩ := h n (by omega)
    cases hres : assign_input_plane_multi buffer info n mid with
    | some o => exact ⟨o, by rw [for_plane_index_succ, hmid]; exact hres⟩
    | none =>
      unfold assign_input_plane_multi at hres
      rw [hm] at hres
      simp [g_assert, hd] at hres

/-- The plane loop of the single-block case always completes, and binds every
plane to the one DMA buffer at the offset of the plane. -/
theorem single_loop_some (buffer : GstBuffer) (info : Option GstVideoInfo) (buf : Nat)
    (n : Nat) (s0 : Imx2dSurface × Imx2dSurfaceDesc) :
    ∃ out, for_plane_index n (assign_input_plane_single buffer info buf) s0 = some out ∧
      (∀ p, p < n →
        out.1.dma_buffers p = some buf ∧
        out.2.plane_strides p = input_plane_stride buffer info p ∧
        out.1.dma_buffer_offsets p = input_plane_offset buffer info p) ∧
      (∀ p, n ≤ p → out.2.plane_strides p = s0.2.plane_strides p ∧
        out.1.dma_buffer_offsets p = s0.1.dma_buffer_offsets p ∧
        out.1.dma_buffers p = s0.1.dma_buffers p) ∧
      out.2.num_padding_rows = s0.2.num_padding_rows := by
  induction n with
  | zero =>
    exact ⟨s0, by simp [for_plane_index], fun p hp => absurd hp (Nat.not_lt_zero p),
      fun p _ => ⟨rfl, rfl, rfl⟩, rfl⟩
  | succ n ih =>
    obtain ⟨mid, hmid, ih1, ih2, ih3⟩ := ih
    refine ⟨_, by rw [for_plane_index_succ, hmid]; rfl, ?_, ?_, ?_⟩
    · intro p hp
      by_cases hpn : p = n
      · subst hpn
        refine ⟨?_, ?_, ?_⟩ <;> simp [imx_2d_surface_set_dma_buffer]
      · obtain ⟨hb', hs', ho'⟩ := ih1 p (by omega)
        refine ⟨?_, ?_, ?_⟩ <;>
          simp [imx_2d_surface_set_dma_buffer, Function.update_noteq hpn, *]
    · intro p hp
      have hpn : p ≠ n := by omega
      obtain ⟨hs', ho', hb'⟩ := ih2 p (by omega)
      refine ⟨?_, ?_, ?_⟩ <;>
        simp [imx_2d_surface_set_dma_buffer, Function.update_noteq hpn, *]
    · exact ih3

/-- The assertions collected in `input_plane_assertions` hold when the plane binding
part completes, and the planes are then bound as the loops prescribe. -/
theorem assign_input_planes_some (buffer : GstBuffer) (surface : Imx2dSurface)
    (desc : Imx2dSurfaceDesc) (info : Option GstVideoInfo)
    (mid : Imx2dSurface × Imx2dSurfaceDesc)
    (h : assign_input_planes buffer surface desc info = some mid) :
    input_plane_assertions buffer info = true ∧
    ∀ p, p < input_num_planes buffer info →
      mid.2.plane_strides p = input_plane_stride buffer info p ∧
      (buffer.memory.length > 1 →
        mid.1.dma_buffer_offsets p = 0 ∧
        ∃ m, buffer.memory[p]? = some m ∧ mid.1.dma_buffers p = some m.dma_buffer) ∧
      (buffer.memory.length ≤ 1 →
        mid.1.dma_buffer_offsets p = input_plane_offset buffer info p ∧
        ∃ m, buffer.memory = [m] ∧ mid.1.dma_buffers p = some m.dma_buffer) := by
  unfold assign_input_planes at h
  by_cases hlen : buffer.memory.length > 1
  · simp only [hlen, if_true] at h
    cases hpres : (buffer.videometa.isSome || info.isSome) with
    | false => simp [g_assert, hpres] at h
    | true =>
      simp only [g_assert, hpres, if_true] at h
      obtain ⟨h1, -, -⟩ := multi_loop_some buffer info _ _ _ h
      refine ⟨?_, ?_⟩
      · unfold input_plane_assertions
        simp only [hpres, hlen, if_true, Bool.true_and, List.all_eq_true, List.mem_range]
        intro p hp
        obtain ⟨⟨m, hm, hd, -⟩, -, -⟩ := h1 p hp
        rw [hm]
        exact hd
      · intro p hp
        obtain ⟨⟨m, hm, hd, hb⟩, hs, ho⟩ := h1 p hp
        exact ⟨hs, fun _ => ⟨ho, m, hm, hb⟩, fun hle => absurd hlen (by omega)⟩
  · simp only [hlen, if_false] at h
    cases hhead : buffer.memory.head? with
    | none => rw [hhead] at h; simp at h
    | some m =>
      rw [hhead] at h
      cases hd : m.is_imx_dma_buffer_memory with
      | false => simp [g_assert, hd] at h
      | true =>
        cases hpres : (buffer.videometa.isSome || info.isSome) with
        | false => simp [g_assert, hd, hpres] at h
        | true =>
          simp only [g_assert, hd, hpres, if_true] at h
          obtain ⟨out, hout, h1, -, -⟩ :=
            single_loop_some buffer info m.dma_buffer (input_num_planes buffer info)
              (surface, desc)
          rw [hout] at h
          cases h
          have hmem : buffer.memory = [m] := by
            cases hl : buffer.memory with
            | nil => rw [hl] at hhead; simp at hhead
            | cons a l =>
              rw [hl] at hhead hlen
              simp at hhead hlen
              subst hhead
              simp [hlen]
          refine ⟨?_, ?_⟩
          · unfold input_plane_assertions
            simp [hpres, hlen, hhead, hd]
          · intro p hp
            obtain ⟨hb, hs, ho⟩ := h1 p hp
            exact ⟨hs, fun hgt => absurd hgt hlen, fun _ => ⟨ho, m, hmem, hb⟩⟩

/-- The plane binding part completes when the assertions collected in
`input_plane_assertions` hold. -/
theorem assign_input_planes_isSome (buffer : GstBuffer) (surface : Imx2dSurface)
    (desc : Imx2dSurfaceDesc) (info : Option GstVideoInfo)
    (h : input_plane_assertions buffer info = true) :
    ∃ mid, assign_input_planes buffer surface desc info = some mid := by
  unfold input_plane_assertions at h
  simp only [Bool.and_eq_true] at h
  obtain ⟨hpres, h2⟩ := h
  unfold assign_input_planes
  by_cases hlen : buffer.memory.length > 1
  · simp only [hlen, if_true, List.all_eq_true, List.mem_range] at h2
    simp only [hlen, if_true, g_assert, hpres]
    apply multi_loop_isSome
    intro p hp
    have := h2 p hp
    cases hm : buffer.memory[p]? with
    | none => rw [hm] at this; simp at this
    | some m => rw [hm] at this; exact ⟨m, rfl, this⟩
  · simp only [hlen, if_false] at h2
    simp only [hlen, if_false]
    cases hhead : buffer.memory.head? with
    | none => rw [hhead] at h2; simp at h2
    | some m =>
      rw [hhead] at h2
      simp only at h2
      simp only [g_assert, h2, hpres, if_true]
      obtain ⟨out, hout, -⟩ :=
        single_loop_some buffer info m.dma_buffer (input_num_planes buffer info) (surface, desc)
      exact ⟨out, hout⟩

/-- The result of the whole binder in terms of the plane binding part. -/
theorem assign_input_buffer_eq (total_num_frame_rows : GstBuffer → Option GstVideoInfo → Int)
    (buffer : GstBuffer) (surface : Imx2dSurface) (desc : Imx2dSurfaceDesc)
    (info : Option GstVideoInfo) (out : Imx2dSurface × Imx2dSurfaceDesc) :
    gst_imx_2d_assign_input_buffer_to_surface total_num_frame_rows buffer surface desc info
        = some out ↔
      ∃ mid, assign_input_planes buffer surface desc info = some mid ∧
        0 ≤ total_num_frame_rows buffer info - input_frame_height buffer info ∧
        out = (mid.1, ⟨mid.2.plane_strides,
          total_num_frame_rows buffer info - input_frame_height buffer info⟩) := by
  unfold gst_imx_2d_assign_input_buffer_to_surface
  cases hmid : assign_input_planes buffer surface desc info with
  | none => simp
  | some mid =>
    obtain ⟨s1, d1⟩ := mid
    by_cases hpad : 0 ≤ total_num_frame_rows buffer info - input_frame_height buffer info
    · simp [g_assert, hpad, eq_comm]
    · simp [g_assert, hpad]

/-- C3: when the binder completes, every plane below the plane count (the
`n_planes` of the video meta when the buffer has one, of the video info otherwise)
has the stride of the video meta when there is one and of the video info otherwise;
with more than one memory block its offset is 0 and it is bound to the DMA buffer
of memory block `p`; with at most one memory block its offset is that of the video
meta, or of the video info when there is no video meta, and it is bound to the
DMA buffer of the one block.  The binder completes when its assertions hold. -/
theorem assign_input_buffer_plane_binding
    (total_num_frame_rows : GstBuffer → Option GstVideoInfo → Int)
    (buffer : GstBuffer) (surface : Imx2dSurface) (desc : Imx2dSurfaceDesc)
    (info : Option GstVideoInfo) :
    (∀ out, gst_imx_2d_assign_input_buffer_to_surface total_num_frame_rows buffer surface
        desc info = some out →
      ∀ p, p < input_num_planes buffer info →
        ((∀ vm, buffer.videometa = some vm → out.2.plane_strides p = vm.stride p) ∧
         (∀ i, buffer.videometa = none → info = some i →
            out.2.plane_strides p = i.stride p)) ∧
        (buffer.memory.length > 1 →
          out.1.dma_buffer_offsets p = 0 ∧
          ∃ m, buffer.memory[p]? = some m ∧ out.1.dma_buffers p = some m.dma_buffer) ∧
        (buffer.memory.length ≤ 1 →
          ((∀ vm, buffer.videometa = some vm →
              out.1.dma_buffer_offsets p = vm.offset p) ∧
           (∀ i, buffer.videometa = none → info = some i →
              out.1.dma_buffer_offsets p = i.offset p)) ∧
          ∃ m, buffer.memory = [m] ∧ out.1.dma_buffers p = some m.dma_buffer)) ∧
    (input_plane_assertions buffer info = true →
      0 ≤ total_num_frame_rows buffer info - input_frame_height buffer info →
      ∃ out, gst_imx_2d_assign_input_buffer_to_surface total_num_frame_rows buffer surface
        desc info = some out) := by
  refine ⟨?_, ?_⟩
  · intro out hout p hp
    obtain ⟨mid, hmid, -, rfl⟩ := (assign_input_buffer_eq _ _ _ _ _ _).mp hout
    obtain ⟨-, hplanes⟩ := assign_input_planes_some buffer surface desc info mid hmid
    obtain ⟨hs, hmulti, hsingle⟩ := hplanes p hp
    refine ⟨⟨?_, ?_⟩, hmulti, ?_⟩
    · intro vm hvm
      show mid.2.plane_strides p = _
      rw [hs]; unfold input_plane_stride; rw [hvm]
    · intro i hvm hi
      show mid.2.plane_strides p = _
      rw [hs]; unfold input_plane_stride; rw [hvm, hi]
    · intro hle
      obtain ⟨ho, hb⟩ := hsingle hle
      refine ⟨⟨?_, ?_⟩, hb⟩
      · intro vm hvm
        show mid.1.dma_buffer_offsets p = _
        rw [ho]; unfold input_plane_offset; rw [hvm]
      · intro i hvm hi
        show mid.1.dma_buffer_offsets p = _
        rw [ho]; unfold input_plane_offset; rw [hvm, hi]
  · intro hassert hpad
    obtain ⟨mid, hmid⟩ := assign_input_planes_isSome buffer surface desc info hassert
    exact ⟨_, (assign_input_buffer_eq _ _ _ _ _ _).mpr ⟨mid, hmid, hpad, rfl⟩⟩

/-- Instance of C3: a buffer with one DMA block per plane; plane 1 gets the stride
1920 of the video meta, offset 0 although the video meta holds 2073600, and the
DMA buffer of block 1. -/
theorem assign_input_buffer_plane_binding_witness :
    input_plane_assertions example_buffer_multi none = true ∧
    example_videometa.offset 1 = 2073600 ∧
    ∃ out, gst_imx_2d_assign_input_buffer_to_surface example_input_num_frame_rows
        example_buffer_multi example_surface example_surface_desc none = some out ∧
      out.2.plane_strides 1 = 1920 ∧ out.1.dma_buffer_offsets 1 = 0 ∧
      out.1.dma_buffers 1 = some 12 := by
  have h := assign_input_buffer_plane_binding example_input_num_frame_rows
    example_buffer_multi example_surface example_surface_desc none
  obtain ⟨out, hout⟩ := h.2 (by decide) (by decide)
  obtain ⟨⟨hs, -⟩, hmulti, -⟩ := h.1 out hout 1 (by decide)
  obtain ⟨ho, m, hm, hb⟩ := hmulti (by decide)
  have hm' : m = ⟨true, 12⟩ := by
    have : example_buffer_multi.memory[1]? = some ⟨true, 12⟩ := by decide
    rw [this] at hm
    exact (Option.some.inj hm).symm
  subst hm'
  exact ⟨by decide, by decide, out, hout, hs example_videometa rfl, ho, hb⟩

/-! ## Properties of the tile layout extraction -/

/-- Replacing the value of a field that a field list has: the field then holds the
new value. -/
theorem lookup_map_replace (k : String) (v : GValue) (l : List (String × GValue)) :
    (l.map (fun field => if field.1 = k then (field.1, v) else field)).lookup k
      = (l.lookup k).map (fun _ => v) := by
  induction l with
  | nil => rfl
  | cons a t ih =>
    obtain ⟨a1, a2⟩ := a
    by_cases h : a1 = k
    · subst h
      simp [List.lookup_cons]
    · have h' : (k == a1) = false := by
        simp only [beq_eq_false_iff_ne, ne_eq]
        exact fun e => h e.symm
      simp only [List.map_cons, h, if_false, List.lookup_cons, h', cond_false]
      exact ih

/-- After `gst_structure_set_value` with a string, `gst_structure_get_string` gives
that string. -/
theorem get_string_set_value (s : GstStructure) (k v : String) :
    gst_structure_get_string (gst_structure_set_value s k (.string v)) k = some v := by
  unfold gst_structure_get_string gst_structure_set_value
  cases h : s.fields.lookup k with
  | some x =>
    simp only [h, Option.isSome_some, if_true, lookup_map_replace, Option.map_some']
  | none =>
    have hl : (s.fields ++ [(k, GValue.string v)]).lookup k = some (GValue.string v) := by
      generalize s.fields = l at h
      induction l with
      | nil => simp [List.lookup]
      | cons a t ih =>
        obtain ⟨a1, a2⟩ := a
        simp only [List.lookup] at h
        cases hk : (k == a1) with
        | true => rw [hk] at h; simp at h
        | false =>
          rw [hk] at h
          simp only [List.cons_append, List.lookup, hk]
          exact ih h
    simp [hl]

/-- C11: on a fixed caps whose format string is `s`, the tile layout extraction
turns `NV12_AMPHION_8x128` into `NV12` and `NV21_AMPHION_8x128` into `NV21` and
reports the Amphion layout; for every other string the caps are returned as they
are and the layout `NONE` is reported.  On an empty, `ANY` or not fixed caps the
caps are returned as they are (and no layout is written). -/
theorem remove_tile_layout_from_caps_spec :
    (∀ (s : GstStructure) (features : List String) (format_str : String)
        (tile_layout : Option GstImx2dTileLayout),
      gst_caps_is_fixed (.structures [(s, features)]) = true →
      gst_structure_get_string s "format" = some format_str →
      (format_str = "NV12_AMPHION_8x128" →
        gst_imx_remove_tile_layout_from_caps (.structures [(s, features)]) tile_layout
          = some (some (.structures
              [(gst_structure_set_value s "format" (.string "NV12"), features)]),
            tile_layout.map (fun _ => GstImx2dTileLayout.AMPHION_8x128)) ∧
        gst_structure_get_string (gst_structure_set_value s "format" (.string "NV12"))
          "format" = some "NV12") ∧
      (format_str = "NV21_AMPHION_8x128" →
        gst_imx_remove_tile_layout_from_caps (.structures [(s, features)]) tile_layout
          = some (some (.structures
              [(gst_structure_set_value s "format" (.string "NV21"), features)]),
            tile_layout.map (fun _ => GstImx2dTileLayout.AMPHION_8x128)) ∧
        gst_structure_get_string (gst_structure_set_value s "format" (.string "NV21"))
          "format" = some "NV21") ∧
      (format_str ≠ "NV12_AMPHION_8x128" → format_str ≠ "NV21_AMPHION_8x128" →
        gst_imx_remove_tile_layout_from_caps (.structures [(s, features)]) tile_layout
          = some (some (.structures [(s, features)]),
            tile_layout.map (fun _ => GstImx2dTileLayout.NONE)))) ∧
    (∀ (caps : GstCaps) (tile_layout : Option GstImx2dTileLayout),
      gst_caps_is_empty caps = true ∨ gst_caps_is_any caps = true ∨
        gst_caps_is_fixed caps = false →
      gst_imx_remove_tile_layout_from_caps caps tile_layout = some (some caps, tile_layout)) := by
  refine ⟨?_, ?_⟩
  · intro s features format_str tile_layout hfixed hformat
    have hne : gst_caps_is_empty (.structures [(s, features)]) = false := rfl
    have hna : gst_caps_is_any (.structures [(s, features)]) = false := rfl
    refine ⟨?_, ?_, ?_⟩
    · intro h
      subst h
      refine ⟨?_, get_string_set_value s "format" "NV12"⟩
      simp [gst_imx_remove_tile_layout_from_caps, hne, hna, hfixed, hformat,
        nv12_amphion_8x128_str]
    · intro h
      subst h
      refine ⟨?_, get_string_set_value s "format" "NV21"⟩
      simp [gst_imx_remove_tile_layout_from_caps, hne, hna, hfixed, hformat,
        nv12_amphion_8x128_str, nv21_amphion_8x128_str]
    · intro h12 h21
      simp [gst_imx_remove_tile_layout_from_caps, hne, hna, hfixed, hformat,
        nv12_amphion_8x128_str, nv21_amphion_8x128_str, h12, h21]
  · intro caps tile_layout h
    unfold gst_imx_remove_tile_layout_from_caps
    by_cases he : gst_caps_is_empty caps = true
    · simp [he]
    · by_cases ha : gst_caps_is_any caps = true
      · simp [he, ha]
      · have hf : gst_caps_is_fixed caps = false := by
          rcases h with h | h | h
          · exact absurd h he
          · exact absurd h ha
          · exact h
        simp [he, ha, hf]

/-- Instances of C11: a fixed caps with the reserved NV12 token, a fixed caps with
the plain name `I420`, and a caps whose format is a list. -/
theorem remove_tile_layout_from_caps_spec_witness :
    gst_caps_is_fixed example_caps_tiled_nv12 = true ∧
    (∃ s', gst_imx_remove_tile_layout_from_caps example_caps_tiled_nv12 (some .NONE)
        = some (some (.structures [(s', [])]), some .AMPHION_8x128) ∧
      gst_structure_get_string s' "format" = some "NV12") ∧
    gst_imx_remove_tile_layout_from_caps example_caps_i420 (some .AMPHION_8x128)
      = some (some example_caps_i420, some .NONE) ∧
    gst_caps_is_fixed example_caps_unfixed = false ∧
    gst_imx_remove_tile_layout_from_caps example_caps_unfixed (some .AMPHION_8x128)
      = some (some example_caps_unfixed, some .AMPHION_8x128) :=
  ⟨by decide,
   ⟨_, (remove_tile_layout_from_caps_spec.1 _ [] "NV12_AMPHION_8x128" (some .NONE)
      (by decide) (by decide)).1 rfl⟩,
   (remove_tile_layout_from_caps_spec.1 _ [] "I420" (some .AMPHION_8x128)
      (by decide) (by decide)).2.2 (by decide) (by decide),
   by decide,
   remove_tile_layout_from_caps_spec.2 example_caps_unfixed (some .AMPHION_8x128)
     (Or.inr (Or.inr (by decide)))⟩

/-! ## Properties of the caps built from the hardware capabilities -/

/-- The loop that fills the format list keeps, in order, the names that are not
`NULL`. -/
theorem caps_format_list_eq_filterMap (lib : GstVideoFormat → Option String)
    (l : List Imx2dPixelFormat) :
    caps_format_list lib l = l.filterMap (caps_format_str lib) := by
  unfold caps_format_list
  have h : ∀ (acc : List String),
      List.foldl (fun format_list supported_format =>
          match caps_format_str lib supported_format with
          | some format_str => format_list ++ [format_str]
          | none => format_list) acc l
        = acc ++ l.filterMap (caps_format_str lib) := by
    induction l with
    | nil => intro acc; simp
    | cons a t ih =>
      intro acc
      simp only [List.foldl_cons, List.filterMap_cons]
      cases hc : caps_format_str lib a with
      | none => simp only [ih]
      | some x => simp only [ih, List.append_assoc, List.singleton_append]
  simpa using h []

/-- The fields of the structure built from the capabilities. -/
theorem caps_structure_eq (capabilities : Imx2dHardwareCapabilities)
    (format_list : List String) :
    caps_structure capabilities format_list =
      ⟨"video/x-raw",
        [("framerate", .fraction_range 0 1 G_MAXINT 1),
          ("width", .int_range_step capabilities.min_width capabilities.max_width
            capabilities.width_step_size),
          ("height", .int_range_step capabilities.min_height capabilities.max_height
            capabilities.height_step_size),
          ("format", .list format_list)]⟩ := by
  rfl

/-- C12: for the directions sink and src the caps are built, and their first
structure has, in this order, the frame rate range `[0/1, G_MAXINT/1]`, the width
range `[min_width, max_width]` with step `width_step_size`, the height range
`[min_height, max_height]` with step `height_step_size`, and the format list.  The
format list holds, in order, the names of the supported source formats (sink) or
of the supported destination formats (src): the reserved token for each of the two
tiled formats, the name GStreamer gives to the translated format for every other
entry, and nothing for an entry that translates to `UNKNOWN`. -/
theorem caps_from_capabilities_first_structure
    (lib : GstVideoFormat → Option String) (capabilities : Imx2dHardwareCapabilities)
    (add_composition_meta : Bool) :
    (∃ rest, gst_imx_2d_get_caps_from_imx2d_capabilities_full lib capabilities .SINK
        add_composition_meta
      = some (.structures ((⟨"video/x-raw",
          [("framerate", .fraction_range 0 1 G_MAXINT 1),
            ("width", .int_range_step capabilities.min_width capabilities.max_width
              capabilities.width_step_size),
            ("height", .int_range_step capabilities.min_height capabilities.max_height
              capabilities.height_step_size),
            ("format", .list (capabilities.supported_source_pixel_formats.filterMap
              (caps_format_str lib)))]⟩, []) :: rest))) ∧
    (∃ rest, gst_imx_2d_get_caps_from_imx2d_capabilities_full lib capabilities .SRC
        add_composition_meta
      = some (.structures ((⟨"video/x-raw",
          [("framerate", .fraction_range 0 1 G_MAXINT 1),
            ("width", .int_range_step capabilities.min_width capabilities.max_width
              capabilities.width_step_size),
            ("height", .int_range_step capabilities.min_height capabilities.max_height
              capabilities.height_step_size),
            ("format", .list (capabilities.supported_dest_pixel_formats.filterMap
              (caps_format_str lib)))]⟩, []) :: rest))) ∧
    caps_format_str lib .TILED_NV12_AMPHION_8x128 = some "NV12_AMPHION_8x128" ∧
    caps_format_str lib .TILED_NV21_AMPHION_8x128 = some "NV21_AMPHION_8x128" ∧
    (∀ f : Imx2dPixelFormat, f ≠ .TILED_NV12_AMPHION_8x128 →
      f ≠ .TILED_NV21_AMPHION_8x128 →
      (gst_imx_2d_convert_to_gst_video_format f = .UNKNOWN → caps_format_str lib f = none) ∧
      (gst_imx_2d_convert_to_gst_video_format f ≠ .UNKNOWN →
        caps_format_str lib f = lib (gst_imx_2d_convert_to_gst_video_format f))) := by
  refine ⟨?_, ?_, rfl, rfl, ?_⟩
  · cases add_composition_meta
    · exact ⟨[], by
        simp only [gst_imx_2d_get_caps_from_imx2d_capabilities_full,
          caps_format_list_eq_filterMap, caps_structure_eq]
        rfl⟩
    · exact ⟨_, by
        simp only [gst_imx_2d_get_caps_from_imx2d_capabilities_full,
          caps_format_list_eq_filterMap, caps_structure_eq]
        rfl⟩
  · cases add_composition_meta
    · exact ⟨[], by
        simp only [gst_imx_2d_get_caps_from_imx2d_capabilities_full,
          caps_format_list_eq_filterMap, caps_structure_eq]
        rfl⟩
    · exact ⟨_, by
        simp only [gst_imx_2d_get_caps_from_imx2d_capabilities_full,
          caps_format_list_eq_filterMap, caps_structure_eq]
        rfl⟩
  · intro f h12 h21
    constructor
    · intro hu
      cases f <;> first | exact absurd rfl h12 | exact absurd rfl h21 |
        simp [caps_format_str, hu]
    · intro hu
      cases f <;> first | exact absurd rfl h12 | exact absurd rfl h21 |
        simp [caps_format_str, hu]

/-- Instance of C12, with the format names as modelled: the supported source
formats tiled NV12, an unnamed hardware format, NV12, `UNKNOWN`, tiled NV21 and
RGBA give the format list of the four names that exist. -/
theorem caps_from_capabilities_first_structure_witness :
    (example_capabilities_tiled.supported_source_pixel_formats.filterMap
        (caps_format_str gst_video_format_to_string)
      = ["NV12_AMPHION_8x128", "NV12", "NV21_AMPHION_8x128", "RGBA"]) ∧
    Imx2dPixelFormat.RGBA8888 ≠ .TILED_NV12_AMPHION_8x128 ∧
    caps_format_str gst_video_format_to_string .RGBA8888
      = gst_video_format_to_string (gst_imx_2d_convert_to_gst_video_format .RGBA8888) ∧
    caps_format_str gst_video_format_to_string (.other 99) = none :=
  ⟨by decide, by decide,
   ((caps_from_capabilities_first_structure gst_video_format_to_string
      example_capabilities_tiled false).2.2.2.2 .RGBA8888 (by decide) (by decide)).2
      (by decide),
   ((caps_from_capabilities_first_structure gst_video_format_to_string
      example_capabilities_tiled false).2.2.2.2 (.other 99) (by decide) (by decide)).1
      (by decide)⟩

/-- C18: for the directions sink and src, and only for them, the caps are built.
Without the composition meta they hold exactly one structure, with it exactly
two; the second structure equals the first, only the second carries the caps
features system memory and overlay composition meta, and the first structure is
the same as in the caps built without the composition meta.
`gst_imx_2d_get_caps_from_imx2d_capabilities` is the full variant called with
`FALSE`. -/
theorem caps_from_capabilities_structure_count
    (lib : GstVideoFormat → Option String) (capabilities : Imx2dHardwareCapabilities)
    (direction : GstPadDirection) :
    gst_imx_2d_get_caps_from_imx2d_capabilities lib capabilities direction
      = gst_imx_2d_get_caps_from_imx2d_capabilities_full lib capabilities direction false ∧
    (direction = .SINK ∨ direction = .SRC →
      ∃ s : GstStructure,
        gst_imx_2d_get_caps_from_imx2d_capabilities_full lib capabilities direction false
          = some (.structures [(s, [])]) ∧
        gst_imx_2d_get_caps_from_imx2d_capabilities_full lib capabilities direction true
          = some (.structures [(s, []),
              (s, [GST_CAPS_FEATURE_MEMORY_SYSTEM_MEMORY,
                GST_CAPS_FEATURE_META_GST_VIDEO_OVERLAY_COMPOSITION])])) ∧
    (∀ (add_composition_meta : Bool),
      (gst_imx_2d_get_caps_from_imx2d_capabilities_full lib capabilities direction
          add_composition_meta).isSome = true ↔ (direction = .SINK ∨ direction = .SRC)) := by
  refine ⟨rfl, ?_, ?_⟩
  · rintro (h | h) <;> subst h
    · exact ⟨_, rfl, rfl⟩
    · exact ⟨_, rfl, rfl⟩
  · intro add_composition_meta
    cases direction <;> cases add_composition_meta <;>
      simp [gst_imx_2d_get_caps_from_imx2d_capabilities_full]

/-- Instance of C18: the sink caps of the example capabilities. -/
theorem caps_from_capabilities_structure_count_witness :
    ∃ s : GstStructure,
      gst_imx_2d_get_caps_from_imx2d_capabilities_full gst_video_format_to_string
          example_capabilities_tiled .SINK false
        = some (.structures [(s, [])]) ∧
      gst_imx_2d_get_caps_from_imx2d_capabilities_full gst_video_format_to_string
          example_capabilities_tiled .SINK true
        = some (.structures [(s, []),
            (s, ["memory:SystemMemory", "meta:GstVideoOverlayComposition"])]) :=
  (caps_from_capabilities_structure_count gst_video_format_to_string
    example_capabilities_tiled .SINK).2.1 (Or.inl rfl)

/-- C17: for an empty, `ANY` or not fixed caps, `gst_imx_video_info_from_caps`
returns `FALSE`; the caps handed back through `modified_caps` are the copy of the
input caps, the video info is as before and no tile layout is written. -/
theorem video_info_from_caps_rejects
    (lib_video_info_from_caps : GstVideoInfo → Option GstCaps → Bool × GstVideoInfo)
    (info : GstVideoInfo) (caps : GstCaps) (tile_layout : Option GstImx2dTileLayout)
    (modified_caps : Option (Option GstCaps))
    (h : gst_caps_is_empty caps = true ∨ gst_caps_is_any caps = true ∨
      gst_caps_is_fixed caps = false) :
    gst_imx_video_info_from_caps lib_video_info_from_caps info caps tile_layout modified_caps
      = some (false, info, tile_layout, modified_caps.map (fun _ => some caps)) := by
  unfold gst_imx_video_info_from_caps
  by_cases he : gst_caps_is_empty caps = true
  · simp [he]
  · by_cases ha : gst_caps_is_any caps = true
    · simp [he, ha]
    · have hf : gst_caps_is_fixed caps = false := by
        rcases h with h | h | h
        · exact absurd h he
        · exact absurd h ha
        · exact h
      simp [he, ha, hf]

/-- Instance of C17: a caps whose format is a list holding a reserved token is
handed back with the token in place, and the tile layout variable keeps its value. -/
theorem video_info_from_caps_rejects_witness :
    gst_caps_is_fixed example_caps_unfixed = false ∧
    gst_imx_video_info_from_caps (fun i _ => (true, i)) example_video_info
        example_caps_unfixed (some .NONE) (some none)
      = some (false, example_video_info, some .NONE, some (some example_caps_unfixed)) :=
  ⟨by decide,
   video_info_from_caps_rejects (fun i _ => (true, i)) example_video_info
     example_caps_unfixed (some .NONE) (some none) (Or.inr (Or.inr (by decide)))⟩

/-! ## Properties of the orientation functions -/

/-- C13: on the eight orientation methods with a `case` label the conversion is the
table identity -> none, 90R -> 90, 180 -> 180, 90L -> 270, horiz -> flip
horizontal, vert -> flip vertical, UL_LR -> UL_LR, UR_LL -> UR_LL; it is
injective there and reaches every rotation; every other value gives the rotation
`NONE`. -/
theorem convert_from_video_orientation_method_bijection :
    canonicalOrientations.map gst_imx_2d_convert_from_video_orientation_method
      = [.IMX_2D_ROTATION_NONE, .IMX_2D_ROTATION_90, .IMX_2D_ROTATION_180,
         .IMX_2D_ROTATION_270, .IMX_2D_ROTATION_FLIP_HORIZONTAL,
         .IMX_2D_ROTATION_FLIP_VERTICAL, .IMX_2D_ROTATION_UL_LR,
         .IMX_2D_ROTATION_UR_LL] ∧
    canonicalOrientations.length = 8 ∧ canonicalOrientations.Nodup ∧
    (∀ a ∈ canonicalOrientations, ∀ b ∈ canonicalOrientations,
      gst_imx_2d_convert_from_video_orientation_method a
        = gst_imx_2d_convert_from_video_orientation_method b → a = b) ∧
    (∀ r : Imx2dRotation, ∃ a ∈ canonicalOrientations,
      gst_imx_2d_convert_from_video_orientation_method a = r) ∧
    (∀ m : GstVideoOrientationMethod, m ∉ canonicalOrientations →
      gst_imx_2d_convert_from_video_orientation_method m = .IMX_2D_ROTATION_NONE) := by
  refine ⟨rfl, rfl, by decide, by decide, ?_, ?_⟩
  · intro r
    cases r <;> decide
  · intro m hm
    cases m <;> first | rfl | (exfalso; exact hm (by decide))

/-- Instance of C13: a value outside the eight orientation methods. -/
theorem convert_from_video_orientation_method_bijection_witness :
    GstVideoOrientationMethod.other 8 ∉ canonicalOrientations ∧
    gst_imx_2d_convert_from_video_orientation_method (.other 8) = .IMX_2D_ROTATION_NONE :=
  ⟨by decide,
   convert_from_video_orientation_method_bijection.2.2.2.2.2 (.other 8) (by decide)⟩

/-- The result of the orientation parser on a string that is none of the eight
tokens. -/
theorem orientation_tag_unrecognized (s : String) (o : GstVideoOrientationMethod)
    (h : s ∉ orientationTagTokens) :
    gst_imx_2d_orientation_from_image_direction_tag ⟨some s⟩ o = (false, o) := by
  simp only [orientationTagTokens, List.mem_cons, List.mem_singleton, not_or,
    List.not_mem_nil, or_false] at h
  obtain ⟨h1, h2, h3, h4, h5, h6, h7, h8⟩ := h
  simp only [gst_imx_2d_orientation_from_image_direction_tag]
  rw [if_neg (Ne.symm h1), if_neg (Ne.symm h2), if_neg (Ne.symm h3), if_neg (Ne.symm h4),
    if_neg (Ne.symm h5), if_neg (Ne.symm h6), if_neg (Ne.symm h7), if_neg (Ne.symm h8)]

/-- C14: on a tag list that has the orientation tag with the string `s`, the parser
succeeds exactly when `s` is one of the eight tokens (compared by string
equality, so `Rotate-90` is not one); the tokens give, in their order, identity,
90R, 180, 90L, horiz, UL_LR, vert and UR_LL, which are pairwise distinct; for every
other string, `bogus` among them, the parser fails and the caller's orientation
variable keeps its value. -/
theorem orientation_from_image_direction_tag_spec :
    (∀ (s : String) (o : GstVideoOrientationMethod),
      ((gst_imx_2d_orientation_from_image_direction_tag ⟨some s⟩ o).1 = true ↔
        s ∈ orientationTagTokens) ∧
      (s ∉ orientationTagTokens →
        gst_imx_2d_orientation_from_image_direction_tag ⟨some s⟩ o = (false, o))) ∧
    orientationTagTokens
      = ["rotate-0", "rotate-90", "rotate-180", "rotate-270",
         "flip-rotate-0", "flip-rotate-90", "flip-rotate-180", "flip-rotate-270"] ∧
    (∀ o : GstVideoOrientationMethod,
      orientationTagTokens.map
          (fun s => gst_imx_2d_orientation_from_image_direction_tag ⟨some s⟩ o)
        = [(true, .GST_VIDEO_ORIENTATION_IDENTITY), (true, .GST_VIDEO_ORIENTATION_90R),
           (true, .GST_VIDEO_ORIENTATION_180), (true, .GST_VIDEO_ORIENTATION_90L),
           (true, .GST_VIDEO_ORIENTATION_HORIZ), (true, .GST_VIDEO_ORIENTATION_UL_LR),
           (true, .GST_VIDEO_ORIENTATION_VERT), (true, .GST_VIDEO_ORIENTATION_UR_LL)]) ∧
    [GstVideoOrientationMethod.GST_VIDEO_ORIENTATION_IDENTITY, .GST_VIDEO_ORIENTATION_90R,
      .GST_VIDEO_ORIENTATION_180, .GST_VIDEO_ORIENTATION_90L, .GST_VIDEO_ORIENTATION_HORIZ,
      .GST_VIDEO_ORIENTATION_UL_LR, .GST_VIDEO_ORIENTATION_VERT,
      .GST_VIDEO_ORIENTATION_UR_LL].Nodup ∧
    (∀ o : GstVideoOrientationMethod,
      gst_imx_2d_orientation_from_image_direction_tag ⟨some "bogus"⟩ o = (false, o) ∧
      gst_imx_2d_orientation_from_image_direction_tag ⟨some "Rotate-90"⟩ o = (false, o)) := by
  have hmap : ∀ o : GstVideoOrientationMethod,
      orientationTagTokens.map
          (fun s => gst_imx_2d_orientation_from_image_direction_tag ⟨some s⟩ o)
        = [(true, .GST_VIDEO_ORIENTATION_IDENTITY), (true, .GST_VIDEO_ORIENTATION_90R),
           (true, .GST_VIDEO_ORIENTATION_180), (true, .GST_VIDEO_ORIENTATION_90L),
           (true, .GST_VIDEO_ORIENTATION_HORIZ), (true, .GST_VIDEO_ORIENTATION_UL_LR),
           (true, .GST_VIDEO_ORIENTATION_VERT), (true, .GST_VIDEO_ORIENTATION_UR_LL)] := by
    intro o
    simp [orientationTagTokens, gst_imx_2d_orientation_from_image_direction_tag]
  refine ⟨?_, rfl, hmap, by decide, ?_⟩
  · intro s o
    refine ⟨⟨?_, ?_⟩, orientation_tag_unrecognized s o⟩
    · intro hs
      by_contra hmem
      rw [orientation_tag_unrecognized s o hmem] at hs
      exact Bool.false_ne_true hs
    · intro hmem
      have hall : ∀ p ∈ orientationTagTokens.map
          (fun s => gst_imx_2d_orientation_from_image_direction_tag ⟨some s⟩ o),
          p.1 = true := by
        rw [hmap o]
        decide
      exact hall _ (List.mem_map_of_mem _ hmem)
  · intro o
    exact ⟨orientation_tag_unrecognized "bogus" o (by decide),
      orientation_tag_unrecognized "Rotate-90" o (by decide)⟩

/-- Instance of C14: the token `rotate-90` and the string `bogus`. -/
theorem orientation_from_image_direction_tag_spec_witness :
    "bogus" ∉ orientationTagTokens ∧
    gst_imx_2d_orientation_from_image_direction_tag ⟨some "bogus"⟩
        .GST_VIDEO_ORIENTATION_180 = (false, .GST_VIDEO_ORIENTATION_180) ∧
    (gst_imx_2d_orientation_from_image_direction_tag ⟨some "rotate-90"⟩
        .GST_VIDEO_ORIENTATION_180).1 = true :=
  ⟨by decide,
   (orientation_from_image_direction_tag_spec.1 "bogus" .GST_VIDEO_ORIENTATION_180).2
     (by decide),
   ((orientation_from_image_direction_tag_spec.1 "rotate-90"
     .GST_VIDEO_ORIENTATION_180).1).mpr (by decide)⟩

/-- C15, counterexample to the claim as stated: the result for a tag list without
the orientation tag and the result for a tag list whose orientation tag holds
`bogus` are the same, `FALSE` with the orientation variable as before. -/
theorem orientation_tag_absent_equals_parse_error :
    ¬ (gst_imx_2d_orientation_from_image_direction_tag ⟨none⟩ .GST_VIDEO_ORIENTATION_180
        ≠ gst_imx_2d_orientation_from_image_direction_tag ⟨some "bogus"⟩
          .GST_VIDEO_ORIENTATION_180) := by
  decide

/-- C15, as amended: for a tag list without the orientation tag and for a tag list
whose orientation tag holds a string that is none of the eight tokens, the parser
gives the same result: it returns `FALSE` and leaves the orientation variable as
it was. -/
theorem orientation_tag_absent_and_unrecognized (s : String)
    (o : GstVideoOrientationMethod) (h : s ∉ orientationTagTokens) :
    gst_imx_2d_orientation_from_image_direction_tag ⟨none⟩ o = (false, o) ∧
    gst_imx_2d_orientation_from_image_direction_tag ⟨some s⟩ o = (false, o) ∧
    gst_imx_2d_orientation_from_image_direction_tag ⟨none⟩ o
      = gst_imx_2d_orientation_from_image_direction_tag ⟨some s⟩ o := by
  have h2 := orientation_tag_unrecognized s o h
  exact ⟨rfl, h2, by rw [h2]; rfl⟩

/-- Instance of the amended C15 at the string `bogus`. -/
theorem orientation_tag_absent_and_unrecognized_witness :
    "bogus" ∉ orientationTagTokens ∧
    gst_imx_2d_orientation_from_image_direction_tag ⟨none⟩ .GST_VIDEO_ORIENTATION_90R
      = (false, .GST_VIDEO_ORIENTATION_90R) ∧
    gst_imx_2d_orientation_from_image_direction_tag ⟨some "bogus"⟩
      .GST_VIDEO_ORIENTATION_90R = (false, .GST_VIDEO_ORIENTATION_90R) ∧
    gst_imx_2d_orientation_from_image_direction_tag ⟨none⟩ .GST_VIDEO_ORIENTATION_90R
      = gst_imx_2d_orientation_from_image_direction_tag ⟨some "bogus"⟩
        .GST_VIDEO_ORIENTATION_90R :=
  ⟨by decide,
   orientation_tag_absent_and_unrecognized "bogus" .GST_VIDEO_ORIENTATION_90R (by decide)⟩

/-! ## The structure check on a buffer without memory blocks -/

/-- C19, counterexample to the claim as stated: a buffer without memory blocks is
accepted when the number of planes is 0. -/
theorem check_input_buffer_structure_zero_blocks_zero_planes :
    gst_imx_2d_check_input_buffer_structure { memory := [], videometa := none } 0 = true := by
  decide

/-- C19, as amended: a buffer without memory blocks is rejected for every number of
planes other than 0, and accepted for 0 planes. -/
theorem check_input_buffer_structure_zero_blocks (input_buffer : GstBuffer)
    (num_planes : Nat) (h : input_buffer.memory.length = 0) :
    (num_planes ≠ 0 →
      gst_imx_2d_check_input_buffer_structure input_buffer num_planes = false) ∧
    (num_planes = 0 →
      gst_imx_2d_check_input_buffer_structure input_buffer num_planes = true) := by
  unfold gst_imx_2d_check_input_buffer_structure
  constructor
  · intro hn
    have : ¬ (0 = num_planes) := fun e => hn e.symm
    simp [h, this]
  · intro hn
    simp [h, hn]

/-- Instance of the amended C19: no memory block, three planes. -/
theorem check_input_buffer_structure_zero_blocks_witness :
    gst_imx_2d_check_input_buffer_structure { memory := [], videometa := none } 3 = false :=
  (check_input_buffer_structure_zero_blocks { memory := [], videometa := none } 3 rfl).1
    (by decide)

/-! ## Properties of the output binder -/

/-- The video meta after the first loop of the output binder, for a loop over `n`
planes. -/
theorem output_videometa_loop (info : GstVideoInfo) (vm : GstVideoMeta) (n : Nat) :
    (∀ p, p < n →
      ((List.range n).foldl
        (fun (vm : GstVideoMeta) plane_index =>
          { vm with
            stride := Function.update vm.stride plane_index (info.stride plane_index)
            offset := Function.update vm.offset plane_index (info.offset plane_index) })
        vm).stride p = info.stride p ∧
      ((List.range n).foldl
        (fun (vm : GstVideoMeta) plane_index =>
          { vm with
            stride := Function.update vm.stride plane_index (info.stride plane_index)
            offset := Function.update vm.offset plane_index (info.offset plane_index) })
        vm).offset p = info.offset p) ∧
    (∀ p, n ≤ p →
      ((List.range n).foldl
        (fun (vm : GstVideoMeta) plane_index =>
          { vm with
            stride := Function.update vm.stride plane_index (info.stride plane_index)
            offset := Function.update vm.offset plane_index (info.offset plane_index) })
        vm).stride p = vm.stride p ∧
      ((List.range n).foldl
        (fun (vm : GstVideoMeta) plane_index =>
          { vm with
            stride := Function.update vm.stride plane_index (info.stride plane_index)
            offset := Function.update vm.offset plane_index (info.offset plane_index) })
        vm).offset p = vm.offset p) ∧
    ((List.range n).foldl
        (fun (vm : GstVideoMeta) plane_index =>
          { vm with
            stride := Function.update vm.stride plane_index (info.stride plane_index)
            offset := Function.update vm.offset plane_index (info.offset plane_index) })
        vm).n_planes = vm.n_planes ∧
    ((List.range n).foldl
        (fun (vm : GstVideoMeta) plane_index =>
          { vm with
            stride := Function.update vm.stride plane_index (info.stride plane_index)
            offset := Function.update vm.offset plane_index (info.offset plane_index) })
        vm).height = vm.height := by
  induction n with
  | zero =>
    exact ⟨fun p hp => absurd hp (Nat.not_lt_zero p), fun p _ => ⟨rfl, rfl⟩, rfl, rfl⟩
  | succ n ih =>
    obtain ⟨ih1, ih2, ih3, ih4⟩ := ih
    rw [List.range_succ, List.foldl_append]
    simp only [List.foldl_cons, List.foldl_nil]
    refine ⟨?_, ?_, ih3, ih4⟩
    · intro p hp
      by_cases hpn : p = n
      · subst hpn
        simp
      · obtain ⟨hs, ho⟩ := ih1 p (by omega)
        simp [Function.update_noteq hpn, hs, ho]
    · intro p hp
      have hpn : p ≠ n := by omega
      obtain ⟨hs, ho⟩ := ih2 p (by omega)
      simp [Function.update_noteq hpn, hs, ho]

/-- The surface after the second loop of the output binder, for a loop over `n`
planes. -/
theorem output_surface_loop (surface : Imx2dSurface) (buf : Nat) (info : GstVideoInfo)
    (n : Nat) :
    (∀ p, p < n →
      ((List.range n).foldl
        (fun (s : Imx2dSurface) plane_index =>
          imx_2d_surface_set_dma_buffer s buf plane_index (info.offset plane_index))
        surface).dma_buffers p = some buf ∧
      ((List.range n).foldl
        (fun (s : Imx2dSurface) plane_index =>
          imx_2d_surface_set_dma_buffer s buf plane_index (info.offset plane_index))
        surface).dma_buffer_offsets p = info.offset p) ∧
    (∀ p, n ≤ p →
      ((List.range n).foldl
        (fun (s : Imx2dSurface) plane_index =>
          imx_2d_surface_set_dma_buffer s buf plane_index (info.offset plane_index))
        surface).dma_buffers p = surface.dma_buffers p ∧
      ((List.range n).foldl
        (fun (s : Imx2dSurface) plane_index =>
          imx_2d_surface_set_dma_buffer s buf plane_index (info.offset plane_index))
        surface).dma_buffer_offsets p = surface.dma_buffer_offsets p) := by
  induction n with
  | zero => exact ⟨fun p hp => absurd hp (Nat.not_lt_zero p), fun p _ => ⟨rfl, rfl⟩⟩
  | succ n ih =>
    obtain ⟨ih1, ih2⟩ := ih
    rw [List.range_succ, List.foldl_append]
    simp only [List.foldl_cons, List.foldl_nil]
    refine ⟨?_, ?_⟩
    · intro p hp
      by_cases hpn : p = n
      · subst hpn
        simp [imx_2d_surface_set_dma_buffer]
      · obtain ⟨hb, ho⟩ := ih1 p (by omega)
        simp only [imx_2d_surface_set_dma_buffer] at hb ho ⊢
        simp [Function.update_noteq hpn, hb, ho]
    · intro p hp
      have hpn : p ≠ n := by omega
      obtain ⟨hb, ho⟩ := ih2 p (by omega)
      simp only [imx_2d_surface_set_dma_buffer] at hb ho ⊢
      simp [Function.update_noteq hpn, hb, ho]

/-- The result of the output binder, when it completes. -/
theorem assign_output_buffer_eq (surface : Imx2dSurface) (buffer : GstBuffer)
    (info : GstVideoInfo) (out : Imx2dSurface × GstBuffer) :
    gst_imx_2d_assign_output_buffer_to_surface surface buffer info = some out ↔
      ∃ m, buffer.memory.head? = some m ∧ m.is_imx_dma_buffer_memory = true ∧
        out = (assign_output_surface surface m.dma_buffer info,
          ⟨buffer.memory, buffer.videometa.map (assign_output_videometa info)⟩) := by
  unfold gst_imx_2d_assign_output_buffer_to_surface
  cases hm : buffer.memory.head? with
  | none => simp
  | some m =>
    cases hd : m.is_imx_dma_buffer_memory with
    | false =>
      constructor
      · intro h
        simp [g_assert, hd] at h
      · rintro ⟨m', hm', hd', -⟩
        cases hm'
        rw [hd] at hd'
        cases hd'
    | true =>
      constructor
      · intro h
        simp only [g_assert, hd, if_true, Option.some.injEq] at h
        exact ⟨m, rfl, hd, h.symm⟩
      · rintro ⟨m', hm', hd', rfl⟩
        cases hm'
        simp only [g_assert, hd, if_true]

/-- C16, as amended: when the output binder completes, every plane below the plane
count of the video info is bound in the surface to the DMA buffer of the output
buffer at the offset the video info has for the plane, and the video meta of the
buffer, when there is one, ends with stride and offset of the video info for the
plane; surface and video meta entries of planes at or above the plane count are as
before, as are the memory blocks, the plane count and the height of the video
meta.  The stride goes nowhere else: the surface after the call is the same for
every choice of strides in the video info.  The binder completes when the first
memory block of the buffer is DMA memory. -/
theorem assign_output_buffer_binding (surface : Imx2dSurface) (buffer : GstBuffer)
    (info : GstVideoInfo) :
    (∀ out, gst_imx_2d_assign_output_buffer_to_surface surface buffer info = some out →
      out.2.memory = buffer.memory ∧
      (∃ m, buffer.memory.head? = some m ∧
        ∀ p, p < info.n_planes →
          out.1.dma_buffers p = some m.dma_buffer ∧
          out.1.dma_buffer_offsets p = info.offset p) ∧
      (∀ p, info.n_planes ≤ p →
        out.1.dma_buffers p = surface.dma_buffers p ∧
        out.1.dma_buffer_offsets p = surface.dma_buffer_offsets p) ∧
      (buffer.videometa = none → out.2.videometa = none) ∧
      (∀ vm, buffer.videometa = some vm →
        ∃ vm', out.2.videometa = some vm' ∧
          (∀ p, p < info.n_planes →
            vm'.stride p = info.stride p ∧ vm'.offset p = info.offset p) ∧
          (∀ p, info.n_planes ≤ p →
            vm'.stride p = vm.stride p ∧ vm'.offset p = vm.offset p) ∧
          vm'.n_planes = vm.n_planes ∧ vm'.height = vm.height)) ∧
    (∀ stride' : Nat → Int,
      (gst_imx_2d_assign_output_buffer_to_surface surface buffer
          { info with stride := stride' }).map Prod.fst
        = (gst_imx_2d_assign_output_buffer_to_surface surface buffer info).map Prod.fst) ∧
    ((∃ m, buffer.memory.head? = some m ∧ m.is_imx_dma_buffer_memory = true) →
      ∃ out, gst_imx_2d_assign_output_buffer_to_surface surface buffer info = some out) := by
  refine ⟨?_, ?_, ?_⟩
  · intro out hout
    obtain ⟨m, hm, hd, rfl⟩ := (assign_output_buffer_eq _ _ _ _).mp hout
    obtain ⟨hs1, hs2⟩ := output_surface_loop surface m.dma_buffer info info.n_planes
    refine ⟨rfl, ⟨m, hm, hs1⟩, hs2, ?_, ?_⟩
    · intro hvm
      show buffer.videometa.map (assign_output_videometa info) = none
      rw [hvm]; rfl
    · intro vm hvm
      refine ⟨assign_output_videometa info vm, ?_, output_videometa_loop info vm info.n_planes⟩
      show buffer.videometa.map (assign_output_videometa info) = _
      rw [hvm]; rfl
  · intro stride'
    unfold gst_imx_2d_assign_output_buffer_to_surface
    cases buffer.memory.head? with
    | none => rfl
    | some m =>
      cases hd : m.is_imx_dma_buffer_memory with
      | false => simp [g_assert, hd]
      | true =>
        simp only [g_assert, hd, if_true, Option.map_some']
        try rfl
  · rintro ⟨m, hm, hd⟩
    exact ⟨_, (assign_output_buffer_eq _ _ _ _).mpr ⟨m, hm, hd, rfl⟩⟩

/-- Instance of the amended C16: the output buffer with the stale video meta and
the NV12 video info; plane 1 of the surface gets the DMA buffer 21 and the offset
2088960, and the video meta gets the stride 1920 and that offset. -/
theorem assign_output_buffer_binding_witness :
    ∃ out, gst_imx_2d_assign_output_buffer_to_surface example_surface example_output_buffer
        example_video_info_nv12 = some out ∧
      out.1.dma_buffers 1 = some 21 ∧ out.1.dma_buffer_offsets 1 = 2088960 ∧
      ∃ vm', out.2.videometa = some vm' ∧ vm'.stride 1 = 1920 ∧ vm'.offset 1 = 2088960 ∧
        vm'.stride 2 = 7 := by
  have h := assign_output_buffer_binding example_surface example_output_buffer
    example_video_info_nv12
  obtain ⟨out, hout⟩ := h.2.2 ⟨⟨true, 21⟩, rfl, rfl⟩
  obtain ⟨-, ⟨m, hm, hplanes⟩, -, -, hmeta⟩ := h.1 out hout
  have hm' : m = ⟨true, 21⟩ := by
    have : example_output_buffer.memory.head? = some ⟨true, 21⟩ := rfl
    rw [this] at hm
    exact (Option.some.inj hm).symm
  subst hm'
  obtain ⟨vm', hvm', hlow, hhigh, -, -⟩ := hmeta example_videometa_stale rfl
  exact ⟨out, hout, (hplanes 1 (by decide)).1, (hplanes 1 (by decide)).2, vm', hvm',
    (hlow 1 (by decide)).1, (hlow 1 (by decide)).2, (hhigh 2 (by decide)).1⟩

/-- C16, counterexample to the claim as stated: two video infos that differ in the
strides only, 1920 against 2048, leave the same surface behind, so the stride of
the video info is not among the values the surface receives. -/
theorem assign_output_buffer_surface_without_stride :
    (gst_imx_2d_assign_output_buffer_to_surface example_surface example_output_buffer
        example_video_info_nv12).isSome = true ∧
    (gst_imx_2d_assign_output_buffer_to_surface example_surface example_output_buffer
        example_video_info_nv12).map Prod.fst
      = (gst_imx_2d_assign_output_buffer_to_surface example_surface example_output_buffer
        example_video_info_nv12_wide).map Prod.fst ∧
    example_video_info_nv12.stride 0 ≠ example_video_info_nv12_wide.stride 0 := by
  refine ⟨by decide, rfl, by decide⟩

/-! ## Properties of the stride alignment -/

/-- The `stride_align` entries after the loop over `n` planes: the mask
`stride_alignment - 1` for the planes below `n`, zero for the others. -/
theorem stride_align_loop (n : Nat) (stride_alignment : Int) (p : Nat) :
    ((List.range n).foldl
        (fun (va : GstVideoAlignment) i =>
          { va with stride_align :=
              Function.update va.stride_align i (toGuint (stride_alignment - 1)) })
        gst_video_alignment_reset).stride_align p
      = if p < n then toGuint (stride_alignment - 1) else 0 := by
  induction n with
  | zero => rfl
  | succ n ih =>
    rw [List.range_succ, List.foldl_append]
    simp only [List.foldl_cons, List.foldl_nil]
    by_cases hpn : p = n
    · subst hpn
      simp
    · simp only [Function.update_noteq hpn, ih]
      by_cases hlt : p < n
      · have : p < n + 1 := by omega
        simp [hlt, this]
      · have : ¬ p < n + 1 := by omega
        simp [hlt, this]

/-- The mask handed to `gst_video_info_align` for a plane of the video info. -/
theorem align_video_alignment_stride_align (n : Nat) (stride_alignment r : Int) (p : Nat)
    (hp : p < n) :
    (align_video_alignment n stride_alignment r).stride_align p
      = toGuint (stride_alignment - 1) := by
  have h := stride_align_loop n stride_alignment p
  rw [if_pos hp] at h
  exact h

/-- C20: with `gst_video_info_align` as modelled, for a stride alignment `a` with
`1 ≤ a` (a C `int`) and a plane below the plane count whose stride is not
negative, the stride of the plane after `gst_imx_2d_align_output_video_info` is
the least multiple of `a` that is at least the stride before: it is a multiple
of `a`, not smaller than the stride before, and not larger than any other such
multiple.  The mask handed on for the plane is `a - 1`. -/
theorem align_output_stride_rounding
    (total_num_frame_rows : GstVideoInfo → Int)
    (info : GstVideoInfo) (num_padding_rows : Option Int)
    (caps : Imx2dHardwareCapabilities) (p : Nat)
    (hp : p < info.n_planes)
    (ha : 1 ≤ caps.stride_alignment) (hmax : caps.stride_alignment ≤ G_MAXINT)
    (hs : 0 ≤ info.stride p) :
    ((align_video_alignment info.n_planes caps.stride_alignment
        (align_plane_row_remainder (total_num_frame_rows info)
          caps.total_row_count_alignment)).stride_align p : Int)
      = caps.stride_alignment - 1 ∧
    caps.stride_alignment ∣
      (gst_imx_2d_align_output_video_info total_num_frame_rows gst_video_info_align info
        num_padding_rows caps).1.stride p ∧
    info.stride p ≤
      (gst_imx_2d_align_output_video_info total_num_frame_rows gst_video_info_align info
        num_padding_rows caps).1.stride p ∧
    (∀ m : Int, caps.stride_alignment ∣ m → info.stride p ≤ m →
      (gst_imx_2d_align_output_video_info total_num_frame_rows gst_video_info_align info
        num_padding_rows caps).1.stride p ≤ m) := by
  have hmask : ((align_video_alignment info.n_planes caps.stride_alignment
        (align_plane_row_remainder (total_num_frame_rows info)
          caps.total_row_count_alignment)).stride_align p : Int)
      = caps.stride_alignment - 1 := by
    rw [align_video_alignment_stride_align _ _ _ _ hp]
    exact toGuint_of_range _ (by omega) (by unfold G_MAXINT at hmax; omega)
  have hstride : (gst_imx_2d_align_output_video_info total_num_frame_rows
        gst_video_info_align info num_padding_rows caps).1.stride p
      = info.stride p + align_plane_row_remainder (info.stride p) caps.stride_alignment := by
    show (if p < info.n_planes then round_up_to_multiple (info.stride p) _ else info.stride p)
      = _
    rw [if_pos hp, hmask]
    unfold round_up_to_multiple align_plane_row_remainder
    have : caps.stride_alignment - 1 + 1 = caps.stride_alignment := by ring
    rw [this]
    ring
  obtain ⟨h0, -, hdvd, hmin, -⟩ :=
    align_plane_row_remainder_spec (info.stride p) caps.stride_alignment hs ha
  rw [hstride]
  exact ⟨hmask, hdvd, by omega, hmin⟩

/-- Instance of C20: the stride 5760 of a 1920 pixel wide RGB frame is already a
multiple of the stride alignment 64 and stays; with the stride alignment 7 it
becomes 5761. -/
theorem align_output_stride_rounding_witness :
    (gst_imx_2d_align_output_video_info example_total_num_frame_rows gst_video_info_align
        example_video_info_rgb none example_capabilities).1.stride 0 = 5760 ∧
    (gst_imx_2d_align_output_video_info example_total_num_frame_rows gst_video_info_align
        example_video_info_rgb none example_capabilities_odd).1.stride 0 = 5761 ∧
    (7 : Int) ∣
      (gst_imx_2d_align_output_video_info example_total_num_frame_rows gst_video_info_align
        example_video_info_rgb none example_capabilities_odd).1.stride 0 :=
  ⟨by decide, by decide,
   (align_output_stride_rounding example_total_num_frame_rows example_video_info_rgb none
      example_capabilities_odd 0 (by decide) (by decide) (by decide) (by decide)).2.1⟩

/-! ## Further properties of the letterbox computation -/

/-- The margins and the inner region computed after the display ratio, in terms of
the outer extents and the clamped inner extents `inner_w`, `inner_h`. -/
theorem letterbox_fit_margins (lib : GstLib) (outer : Imx2dRegion) (dn dd : Nat)
    (hx : outer.x1 ≤ outer.x2) (hy : outer.y1 ≤ outer.y2)
    (hxr : outer.x2 - outer.x1 ≤ G_MAXINT) (hyr : outer.y2 - outer.y1 ≤ G_MAXINT) :
    ((letterbox_fit lib outer dn dd).1.left_margin
        = (outer.x2 - outer.x1 - ((letterbox_inner lib outer dn dd).1 : Int)) / 2 ∧
     (letterbox_fit lib outer dn dd).1.right_margin
        = (outer.x2 - outer.x1 - ((letterbox_inner lib outer dn dd).1 : Int))
          - (letterbox_fit lib outer dn dd).1.left_margin ∧
     (letterbox_fit lib outer dn dd).1.top_margin
        = (outer.y2 - outer.y1 - ((letterbox_inner lib outer dn dd).2 : Int)) / 2 ∧
     (letterbox_fit lib outer dn dd).1.bottom_margin
        = (outer.y2 - outer.y1 - ((letterbox_inner lib outer dn dd).2 : Int))
          - (letterbox_fit lib outer dn dd).1.top_margin) ∧
    ((letterbox_fit lib outer dn dd).2.x1
        = outer.x1 + (letterbox_fit lib outer dn dd).1.left_margin ∧
     (letterbox_fit lib outer dn dd).2.y1
        = outer.y1 + (letterbox_fit lib outer dn dd).1.top_margin ∧
     (letterbox_fit lib outer dn dd).2.x2
        = outer.x2 - (letterbox_fit lib outer dn dd).1.right_margin ∧
     (letterbox_fit lib outer dn dd).2.y2
        = outer.y2 - (letterbox_fit lib outer dn dd).1.bottom_margin) ∧
    ((letterbox_fit lib outer dn dd).2.x2 - (letterbox_fit lib outer dn dd).2.x1
        = ((letterbox_inner lib outer dn dd).1 : Int) ∧
     (letterbox_fit lib outer dn dd).2.y2 - (letterbox_fit lib outer dn dd).2.y1
        = ((letterbox_inner lib outer dn dd).2 : Int)) ∧
    (((letterbox_inner lib outer dn dd).1 : Int) ≤ outer.x2 - outer.x1 ∧
     ((letterbox_inner lib outer dn dd).2 : Int) ≤ outer.y2 - outer.y1) := by
  have hW : (letterbox_outer_w outer : Int) = outer.x2 - outer.x1 := by
    unfold letterbox_outer_w
    exact toGuint_of_range _ (by omega) (by unfold G_MAXINT at hxr; omega)
  have hH : (letterbox_outer_h outer : Int) = outer.y2 - outer.y1 := by
    unfold letterbox_outer_h
    exact toGuint_of_range _ (by omega) (by unfold G_MAXINT at hyr; omega)
  obtain ⟨hiw, hih⟩ := letterbox_inner_le lib outer dn dd
  obtain ⟨l, r, hl, hr, hl0, hr0, hlr, hl2⟩ :=
    margin_split (letterbox_outer_w outer) (letterbox_inner lib outer dn dd).1
      (by unfold G_MAXINT at hxr; omega) hiw
  obtain ⟨t, b, ht, hb, ht0, hb0, htb, ht2⟩ :=
    margin_split (letterbox_outer_h outer) (letterbox_inner lib outer dn dd).2
      (by unfold G_MAXINT at hyr; omega) hih
  simp only [letterbox_fit, hl, hr, ht, hb]
  rw [hW] at hl2 hlr
  rw [hH] at ht2 htb
  refine ⟨⟨hl2, by omega, ht2, by omega⟩, ⟨trivial, trivial, trivial, trivial⟩,
    ⟨by omega, by omega⟩, ⟨by omega, by omega⟩⟩

/-- The scaling function of the modelled library. -/
theorem gstreamer_scale_int :
    gstreamer.gst_util_uint64_scale_int = Imx2d.gst_util_uint64_scale_int := rfl

/-- The display ratio function of the modelled library. -/
theorem gstreamer_display_ratio :
    gstreamer.gst_video_calculate_display_ratio = Imx2d.gst_video_calculate_display_ratio :=
  rfl

/-- The modelled `gst_util_uint64_scale_int` on a `guint` value and two positive
`gint` arguments is `val * num / denom`, rounded down. -/
theorem scale_model_eq (val num den : Nat) (hval : val < 4294967296)
    (hnum : (num : Int) ≤ G_MAXINT) (hden0 : 0 < den) (hden : (den : Int) ≤ G_MAXINT) :
    gstreamer.gst_util_uint64_scale_int val (toGint num) (toGint den) = val * num / den := by
  unfold G_MAXINT at hnum hden
  rw [gstreamer_scale_int]
  rw [toGint_of_range _ (by omega) (by omega), toGint_of_range _ (by omega) (by omega)]
  unfold Imx2d.gst_util_uint64_scale_int
  have h1 : ¬ ((den : Int) ≤ 0 ∨ (num : Int) < 0) := by omega
  rw [if_neg h1]
  simp only [Int.toNat_ofNat]
  apply Nat.min_eq_left
  have hprod : val * num ≤ 4294967295 * 2147483647 :=
    Nat.mul_le_mul (by omega) (by omega)
  have hdiv : val * num / den ≤ val * num := Nat.div_le_self _ _
  unfold G_MAXUINT64
  omega

/-- The display ratio of the modelled `gst_video_calculate_display_ratio` is a pair
of positive `gint` values. -/
theorem display_ratio_model_bounds
    (video_width video_height par_n par_d display_par_n display_par_d : Nat) (dar : Nat × Nat)
    (h : gstreamer.gst_video_calculate_display_ratio video_width video_height par_n par_d
      display_par_n display_par_d = some dar) :
    (0 < dar.1 ∧ (dar.1 : Int) ≤ G_MAXINT) ∧ (0 < dar.2 ∧ (dar.2 : Int) ≤ G_MAXINT) := by
  rw [gstreamer_display_ratio] at h
  unfold Imx2d.gst_video_calculate_display_ratio at h
  simp only at h
  split_ifs at h with h0 hb
  simp only [Option.some.injEq] at h
  subst h
  have hnum : 0 < video_width * par_n * display_par_d := by omega
  have hden : 0 < video_height * par_d * display_par_n := by omega
  have hg : 0 < Nat.gcd (video_width * par_n * display_par_d)
      (video_height * par_d * display_par_n) := Nat.gcd_pos_of_pos_left _ hnum
  have hb1 := hb.1
  have hb2 := hb.2
  have hc1 : ((video_width * par_n * display_par_d
      / Nat.gcd (video_width * par_n * display_par_d)
        (video_height * par_d * display_par_n) : Nat) : Int) ≤ G_MAXINT := by
    push_cast
    exact hb1
  have hc2 : ((video_height * par_d * display_par_n
      / Nat.gcd (video_width * par_n * display_par_d)
        (video_height * par_d * display_par_n) : Nat) : Int) ≤ G_MAXINT := by
    push_cast
    exact hb2
  refine ⟨⟨?_, hc1⟩, ⟨?_, hc2⟩⟩
  · exact Nat.div_pos (Nat.le_of_dvd hnum (Nat.gcd_dvd_left _ _)) hg
  · exact Nat.div_pos (Nat.le_of_dvd hden (Nat.gcd_dvd_right _ _)) hg

/-- When the scaled value `outer_w * ratio_d / outer_h` is at least `ratio_n`, the
width `outer_h * ratio_n / ratio_d` does not exceed `outer_w`. -/
theorem scaled_width_le (w h n d : Nat) (hd : 0 < d) (hge : n ≤ w * d / h) :
    h * n / d ≤ w := by
  have h1 : h * n ≤ h * (w * d / h) := Nat.mul_le_mul_left h hge
  have h2 : h * (w * d / h) ≤ w * d := Nat.mul_div_le _ _
  have h3 : h * n ≤ w * d := le_trans h1 h2
  calc h * n / d ≤ w * d / d := Nat.div_le_div_right h3
    _ = w := Nat.mul_div_left w hd

/-- When the scaled value `outer_w * ratio_d / outer_h` is below `ratio_n`, the
height `outer_w * ratio_d / ratio_n` is below `outer_h`. -/
theorem scaled_height_lt (w h n d : Nat) (hh : 0 < h) (hn : 0 < n) (hlt : w * d / h < n) :
    w * d / n < h := by
  have h1 : w * d < n * h := (Nat.div_lt_iff_lt_mul hh).mp hlt
  rw [Nat.div_lt_iff_lt_mul hn]
  calc w * d < n * h := h1
    _ = h * n := Nat.mul_comm _ _

/-- The pair chosen by the `if (ratio_factor >= display_ratio_n)` statement with the
library as modelled, when the ratio factor fits a `guint`: the values are those of
the integer divisions, and they do not exceed the outer extents. -/
theorem letterbox_unclamped_inner_model (outer : Imx2dRegion) (n d : Nat)
    (hx : outer.x1 ≤ outer.x2) (hy : outer.y1 < outer.y2)
    (hxr : outer.x2 - outer.x1 ≤ G_MAXINT) (hyr : outer.y2 - outer.y1 ≤ G_MAXINT)
    (hn0 : 0 < n) (hn : (n : Int) ≤ G_MAXINT) (hd0 : 0 < d) (hd : (d : Int) ≤ G_MAXINT)
    (hfit : letterbox_outer_w outer * d / letterbox_outer_h outer < 4294967296) :
    (n ≤ letterbox_outer_w outer * d / letterbox_outer_h outer →
      letterbox_unclamped_inner gstreamer outer n d
        = (letterbox_outer_h outer * n / d, letterbox_outer_h outer) ∧
      letterbox_outer_h outer * n / d ≤ letterbox_outer_w outer) ∧
    (letterbox_outer_w outer * d / letterbox_outer_h outer < n →
      letterbox_unclamped_inner gstreamer outer n d
        = (letterbox_outer_w outer, letterbox_outer_w outer * d / n) ∧
      letterbox_outer_w outer * d / n < letterbox_outer_h outer) := by
  have hW : (letterbox_outer_w outer : Int) = outer.x2 - outer.x1 := by
    unfold letterbox_outer_w
    exact toGuint_of_range _ (by omega) (by unfold G_MAXINT at hxr; omega)
  have hH : (letterbox_outer_h outer : Int) = outer.y2 - outer.y1 := by
    unfold letterbox_outer_h
    exact toGuint_of_range _ (by omega) (by unfold G_MAXINT at hyr; omega)
  have hWlt : letterbox_outer_w outer < 4294967296 := by unfold G_MAXINT at hxr; omega
  have hHlt : letterbox_outer_h outer < 4294967296 := by unfold G_MAXINT at hyr; omega
  have hH0 : 0 < letterbox_outer_h outer := by omega
  have hHmax : (letterbox_outer_h outer : Int) ≤ G_MAXINT := by rw [hH]; exact hyr
  have hfactor : letterbox_ratio_factor gstreamer outer d
      = letterbox_outer_w outer * d / letterbox_outer_h outer := by
    unfold letterbox_ratio_factor
    rw [scale_model_eq _ _ _ hWlt hd hH0 hHmax]
    exact Nat.mod_eq_of_lt hfit
  refine ⟨?_, ?_⟩
  · intro hge
    have hle := scaled_width_le (letterbox_outer_w outer) (letterbox_outer_h outer) n d hd0 hge
    refine ⟨?_, hle⟩
    unfold letterbox_unclamped_inner
    simp only [hfactor, ge_iff_le, hge, if_true]
    rw [scale_model_eq _ _ _ hHlt hn hd0 hd]
    rw [Nat.mod_eq_of_lt (by omega)]
  · intro hlt
    have hlt' := scaled_height_lt (letterbox_outer_w outer) (letterbox_outer_h outer) n d
      hH0 hn0 hlt
    refine ⟨?_, hlt'⟩
    unfold letterbox_unclamped_inner
    have hng : ¬ n ≤ letterbox_outer_w outer * d / letterbox_outer_h outer := by omega
    simp only [hfactor, ge_iff_le, hng, if_false]
    rw [scale_model_eq _ _ _ hWlt hd hn0 hn]
    rw [Nat.mod_eq_of_lt (by omega)]

/-- The extents of the inner region with the library as modelled, when the ratio
factor fits a `guint`: the limiting dimension keeps the outer extent, the other
one is the scaled value. -/
theorem letterbox_fit_model_extents (outer : Imx2dRegion) (n d : Nat)
    (hx : outer.x1 ≤ outer.x2) (hy : outer.y1 < outer.y2)
    (hxr : outer.x2 - outer.x1 ≤ G_MAXINT) (hyr : outer.y2 - outer.y1 ≤ G_MAXINT)
    (hn0 : 0 < n) (hn : (n : Int) ≤ G_MAXINT) (hd0 : 0 < d) (hd : (d : Int) ≤ G_MAXINT)
    (hfit : letterbox_outer_w outer * d / letterbox_outer_h outer < 4294967296) :
    (n ≤ letterbox_outer_w outer * d / letterbox_outer_h outer →
      (letterbox_fit gstreamer outer n d).2.y2 - (letterbox_fit gstreamer outer n d).2.y1
        = (letterbox_outer_h outer : Int) ∧
      (letterbox_fit gstreamer outer n d).2.x2 - (letterbox_fit gstreamer outer n d).2.x1
        = ((letterbox_outer_h outer * n / d : Nat) : Int)) ∧
    (letterbox_outer_w outer * d / letterbox_outer_h outer < n →
      (letterbox_fit gstreamer outer n d).2.x2 - (letterbox_fit gstreamer outer n d).2.x1
        = (letterbox_outer_w outer : Int) ∧
      (letterbox_fit gstreamer outer n d).2.y2 - (letterbox_fit gstreamer outer n d).2.y1
        = ((letterbox_outer_w outer * d / n : Nat) : Int)) := by
  obtain ⟨-, -, ⟨hiw, hih⟩, -⟩ :=
    letterbox_fit_margins gstreamer outer n d hx (le_of_lt hy) hxr hyr
  obtain ⟨h1, h2⟩ := letterbox_unclamped_inner_model outer n d hx hy hxr hyr hn0 hn hd0 hd hfit
  rw [hiw, hih]
  refine ⟨?_, ?_⟩
  · intro hge
    obtain ⟨hu, hle⟩ := h1 hge
    simp only [letterbox_inner, hu, Nat.min_self, Nat.min_eq_left hle, and_self]
  · intro hlt
    obtain ⟨hu, hlt'⟩ := h2 hlt
    simp only [letterbox_inner, hu, Nat.min_self, Nat.min_eq_left (le_of_lt hlt'), and_self]

/-- C22: evaluation of `gst_imx_2d_canvas_calculate_letterbox_margin` at the outer
rectangle `{0, 0, 65536, 1}` and a video of 1x65536 square pixels, not transposed,
display ratio `1/65536`.  The scaled value `65536 * 65536 / 1` is `2^32`, which is
at least `ratioN = 1`: the outer rectangle is the wider one, and the height
`outer_h = 1` with the width `floor(1 * 1 / 65536) = 0` is the inner size the
claim and the comment above the comparison call for.  The `(guint)` cast of the
scaled value turns it into the factor `0`, the comparison `0 >= 1` fails, the
branch that keeps the width is taken, and the function returns the margins
`(0, 0, 0, 1)` and the inner rectangle `{0, 0, 65536, 0}`: 65536 wide and 0 high. -/
theorem letterbox_truncated_factor_takes_other_branch :
    gstreamer.gst_video_calculate_display_ratio 1 65536 1 1 1 1 = some (1, 65536) ∧
    gstreamer.gst_util_uint64_scale_int (letterbox_outer_w ⟨0, 0, 65536, 1⟩)
        (toGint 65536) (toGint (letterbox_outer_h ⟨0, 0, 65536, 1⟩)) = 4294967296 ∧
    letterbox_ratio_factor gstreamer ⟨0, 0, 65536, 1⟩ 65536 = 0 ∧
    1 ≤ letterbox_outer_w ⟨0, 0, 65536, 1⟩ * 65536 / letterbox_outer_h ⟨0, 0, 65536, 1⟩ ∧
    gst_imx_2d_canvas_calculate_letterbox_margin gstreamer ⟨0, 0, 0, 0⟩ ⟨0, 0, 65536, 1⟩
        false 1 65536 1 1
      = (⟨0, 0, 0, 1⟩, ⟨0, 0, 65536, 0⟩) ∧
    ¬ ((gst_imx_2d_canvas_calculate_letterbox_margin gstreamer ⟨0, 0, 0, 0⟩
          ⟨0, 0, 65536, 1⟩ false 1 65536 1 1).2.y2
        - (gst_imx_2d_canvas_calculate_letterbox_margin gstreamer ⟨0, 0, 0, 0⟩
          ⟨0, 0, 65536, 1⟩ false 1 65536 1 1).2.y1 = 1 ∧
      (gst_imx_2d_canvas_calculate_letterbox_margin gstreamer ⟨0, 0, 0, 0⟩
          ⟨0, 0, 65536, 1⟩ false 1 65536 1 1).2.x2
        - (gst_imx_2d_canvas_calculate_letterbox_margin gstreamer ⟨0, 0, 0, 0⟩
          ⟨0, 0, 65536, 1⟩ false 1 65536 1 1).2.x1 = ((1 * 1 / 65536 : Nat) : Int)) := by
  decide

/-- The choice of the limiting dimension where the `(guint)` cast of the scaled value
loses nothing: for an outer rectangle with `x2 ≥ x1`, `y2 > y1` and extents
that fit a C `int`, a video of nonzero size whose display ratio the library (as
modelled) computes, `(ratioN, ratioD)` that ratio after the swap for a transposed
video, and a factor `floor(outer_w * ratioD / outer_h)` that fits 32 bits: if the
factor is at least `ratioN`, the inner rectangle has the height `outer_h` and the
width `floor(outer_h * ratioN / ratioD)`, otherwise it has the width `outer_w` and
the height `floor(outer_w * ratioD / ratioN)`.  For the outer rectangle
`{0, 0, 1920, 1080}` and a 720x480 video with square pixels, not transposed, the
margins are 150 left and right and 0 at top and bottom, and the inner rectangle is
`{150, 0, 1770, 1080}`. -/
theorem letterbox_limiting_dimension (inner0 outer : Imx2dRegion) (transposed : Bool)
    (video_width video_height par_n par_d : Nat) (dar : Nat × Nat)
    (hx : outer.x1 ≤ outer.x2) (hy : outer.y1 < outer.y2)
    (hxr : outer.x2 - outer.x1 ≤ G_MAXINT) (hyr : outer.y2 - outer.y1 ≤ G_MAXINT)
    (hw : video_width ≠ 0) (hh : video_height ≠ 0)
    (hdar : gstreamer.gst_video_calculate_display_ratio video_width video_height
      par_n par_d 1 1 = some dar)
    (hfit : letterbox_outer_w outer * (if transposed then dar.1 else dar.2)
      / letterbox_outer_h outer < 4294967296) :
    ((letterbox_outer_w outer : Int) = outer.x2 - outer.x1 ∧
     (letterbox_outer_h outer : Int) = outer.y2 - outer.y1) ∧
    (((if transposed then dar.2 else dar.1)
        ≤ letterbox_outer_w outer * (if transposed then dar.1 else dar.2)
          / letterbox_outer_h outer →
      (gst_imx_2d_canvas_calculate_letterbox_margin gstreamer inner0 outer transposed
          video_width video_height par_n par_d).2.y2
        - (gst_imx_2d_canvas_calculate_letterbox_margin gstreamer inner0 outer transposed
          video_width video_height par_n par_d).2.y1
        = (letterbox_outer_h outer : Int) ∧
      (gst_imx_2d_canvas_calculate_letterbox_margin gstreamer inner0 outer transposed
          video_width video_height par_n par_d).2.x2
        - (gst_imx_2d_canvas_calculate_letterbox_margin gstreamer inner0 outer transposed
          video_width video_height par_n par_d).2.x1
        = ((letterbox_outer_h outer * (if transposed then dar.2 else dar.1)
            / (if transposed then dar.1 else dar.2) : Nat) : Int)) ∧
    (letterbox_outer_w outer * (if transposed then dar.1 else dar.2)
          / letterbox_outer_h outer
        < (if transposed then dar.2 else dar.1) →
      (gst_imx_2d_canvas_calculate_letterbox_margin gstreamer inner0 outer transposed
          video_width video_height par_n par_d).2.x2
        - (gst_imx_2d_canvas_calculate_letterbox_margin gstreamer inner0 outer transposed
          video_width video_height par_n par_d).2.x1
        = (letterbox_outer_w outer : Int) ∧
      (gst_imx_2d_canvas_calculate_letterbox_margin gstreamer inner0 outer transposed
          video_width video_height par_n par_d).2.y2
        - (gst_imx_2d_canvas_calculate_letterbox_margin gstreamer inner0 outer transposed
          video_width video_height par_n par_d).2.y1
        = ((letterbox_outer_w outer * (if transposed then dar.1 else dar.2)
            / (if transposed then dar.2 else dar.1) : Nat) : Int))) ∧
    gst_imx_2d_canvas_calculate_letterbox_margin gstreamer ⟨0, 0, 0, 0⟩ ⟨0, 0, 1920, 1080⟩
        false 720 480 1 1
      = (⟨150, 0, 150, 0⟩, ⟨150, 0, 1770, 1080⟩) := by
  have hW : (letterbox_outer_w outer : Int) = outer.x2 - outer.x1 := by
    unfold letterbox_outer_w
    exact toGuint_of_range _ (by omega) (by unfold G_MAXINT at hxr; omega)
  have hH : (letterbox_outer_h outer : Int) = outer.y2 - outer.y1 := by
    unfold letterbox_outer_h
    exact toGuint_of_range _ (by omega) (by unfold G_MAXINT at hyr; omega)
  have h0 : ¬ (video_width = 0 ∨ video_height = 0) := by
    rintro (h | h)
    · exact hw h
    · exact hh h
  obtain ⟨⟨hn0, hn⟩, ⟨hd0, hd⟩⟩ :=
    display_ratio_model_bounds video_width video_height par_n par_d 1 1 dar hdar
  obtain ⟨dn, dd⟩ := dar
  refine ⟨⟨hW, hH⟩, ?_, by decide⟩
  cases transposed
  · have hres : gst_imx_2d_canvas_calculate_letterbox_margin gstreamer inner0 outer false
        video_width video_height par_n par_d = letterbox_fit gstreamer outer dn dd := by
      simp [gst_imx_2d_canvas_calculate_letterbox_margin, h0, hdar]
    rw [hres]
    simp only [Bool.false_eq_true, if_false] at hfit ⊢
    exact letterbox_fit_model_extents outer dn dd hx hy hxr hyr hn0 hn hd0 hd hfit
  · have hres : gst_imx_2d_canvas_calculate_letterbox_margin gstreamer inner0 outer true
        video_width video_height par_n par_d = letterbox_fit gstreamer outer dd dn := by
      simp [gst_imx_2d_canvas_calculate_letterbox_margin, h0, hdar]
    rw [hres]
    simp only [if_true] at hfit ⊢
    exact letterbox_fit_model_extents outer dd dn hx hy hxr hyr hd0 hd hn0 hn hfit

/-- Instance of the choice of the limiting dimension: a 1080x1920 outer rectangle
and a transposed 720x480 video; the width is the limiting dimension, the inner
rectangle is 1080 wide and 1620 high. -/
theorem letterbox_limiting_dimension_witness :
    gstreamer.gst_video_calculate_display_ratio 720 480 1 1 1 1 = some (3, 2) ∧
    letterbox_outer_w ⟨0, 0, 1080, 1920⟩ * 3 / letterbox_outer_h ⟨0, 0, 1080, 1920⟩ < 2 ∧
    (gst_imx_2d_canvas_calculate_letterbox_margin gstreamer ⟨0, 0, 0, 0⟩ ⟨0, 0, 1080, 1920⟩
        true 720 480 1 1).2.x2
      - (gst_imx_2d_canvas_calculate_letterbox_margin gstreamer ⟨0, 0, 0, 0⟩
        ⟨0, 0, 1080, 1920⟩ true 720 480 1 1).2.x1
      = (letterbox_outer_w ⟨0, 0, 1080, 1920⟩ : Int) ∧
    (gst_imx_2d_canvas_calculate_letterbox_margin gstreamer ⟨0, 0, 0, 0⟩ ⟨0, 0, 1080, 1920⟩
        true 720 480 1 1).2.y2
      - (gst_imx_2d_canvas_calculate_letterbox_margin gstreamer ⟨0, 0, 0, 0⟩
        ⟨0, 0, 1080, 1920⟩ true 720 480 1 1).2.y1
      = ((letterbox_outer_w ⟨0, 0, 1080, 1920⟩ * 3 / 2 : Nat) : Int) :=
  ⟨by decide, by decide,
   (letterbox_limiting_dimension ⟨0, 0, 0, 0⟩ ⟨0, 0, 1080, 1920⟩ true 720 480 1 1 (3, 2)
      (by decide) (by decide) (by decide) (by decide) (by decide) (by decide) (by decide)
      (by decide)).2.1.2 (by decide)⟩

/-- The two margins of each direction differ by at most one, the second being the
larger. -/
theorem letterbox_fit_centred (lib : GstLib) (outer : Imx2dRegion) (dn dd : Nat)
    (hx : outer.x1 ≤ outer.x2) (hy : outer.y1 ≤ outer.y2)
    (hxr : outer.x2 - outer.x1 ≤ G_MAXINT) (hyr : outer.y2 - outer.y1 ≤ G_MAXINT) :
    0 ≤ (letterbox_fit lib outer dn dd).1.right_margin
        - (letterbox_fit lib outer dn dd).1.left_margin ∧
    (letterbox_fit lib outer dn dd).1.right_margin
        - (letterbox_fit lib outer dn dd).1.left_margin ≤ 1 ∧
    0 ≤ (letterbox_fit lib outer dn dd).1.bottom_margin
        - (letterbox_fit lib outer dn dd).1.top_margin ∧
    (letterbox_fit lib outer dn dd).1.bottom_margin
        - (letterbox_fit lib outer dn dd).1.top_margin ≤ 1 := by
  have hW : (letterbox_outer_w outer : Int) = outer.x2 - outer.x1 := by
    unfold letterbox_outer_w
    exact toGuint_of_range _ (by omega) (by unfold G_MAXINT at hxr; omega)
  have hH : (letterbox_outer_h outer : Int) = outer.y2 - outer.y1 := by
    unfold letterbox_outer_h
    exact toGuint_of_range _ (by omega) (by unfold G_MAXINT at hyr; omega)
  obtain ⟨hiw, hih⟩ := letterbox_inner_le lib outer dn dd
  obtain ⟨l, r, hl, hr, hl0, hr0, hlr, hl2⟩ :=
    margin_split (letterbox_outer_w outer) (letterbox_inner lib outer dn dd).1
      (by unfold G_MAXINT at hxr; omega) hiw
  obtain ⟨t, b, ht, hb, ht0, hb0, htb, ht2⟩ :=
    margin_split (letterbox_outer_h outer) (letterbox_inner lib outer dn dd).2
      (by unfold G_MAXINT at hyr; omega) hih
  simp only [letterbox_fit, hl, hr, ht, hb]
  refine ⟨by omega, by omega, by omega, by omega⟩

/-- C23: in a letterbox result off the `set_zero_margin` paths (outer rectangle
with `x2 ≥ x1`, `y2 ≥ y1` and extents that fit a C `int`, video of nonzero size,
display ratio computed), with `inner_w` and `inner_h` the clamped inner extents:
`left = floor((outer_w - inner_w) / 2)`, `right = (outer_w - inner_w) - left`,
`top = floor((outer_h - inner_h) / 2)`, `bottom = (outer_h - inner_h) - top`; the
margins are centred to within one pixel; the inner rectangle is the outer one
moved in by the four margins, and its extents are `inner_w` and `inner_h`.  This
holds for every behaviour of the two library functions. -/
theorem letterbox_margins_centred (lib : GstLib) (inner0 outer : Imx2dRegion)
    (transposed : Bool) (video_width video_height par_n par_d : Nat) (dar : Nat × Nat)
    (hx : outer.x1 ≤ outer.x2) (hy : outer.y1 ≤ outer.y2)
    (hxr : outer.x2 - outer.x1 ≤ G_MAXINT) (hyr : outer.y2 - outer.y1 ≤ G_MAXINT)
    (hw : video_width ≠ 0) (hh : video_height ≠ 0)
    (hdar : lib.gst_video_calculate_display_ratio video_width video_height par_n par_d 1 1
      = some dar) :
    ∃ (margin : Imx2dBlitMargin) (inner : Imx2dRegion) (inner_w inner_h : Int),
      gst_imx_2d_canvas_calculate_letterbox_margin lib inner0 outer transposed
        video_width video_height par_n par_d = (margin, inner) ∧
      (inner_w = ((letterbox_inner lib outer (if transposed then dar.2 else dar.1)
          (if transposed then dar.1 else dar.2)).1 : Int) ∧
       inner_h = ((letterbox_inner lib outer (if transposed then dar.2 else dar.1)
          (if transposed then dar.1 else dar.2)).2 : Int)) ∧
      (margin.left_margin = (outer.x2 - outer.x1 - inner_w) / 2 ∧
       margin.right_margin = (outer.x2 - outer.x1 - inner_w) - margin.left_margin ∧
       margin.top_margin = (outer.y2 - outer.y1 - inner_h) / 2 ∧
       margin.bottom_margin = (outer.y2 - outer.y1 - inner_h) - margin.top_margin) ∧
      (0 ≤ margin.right_margin - margin.left_margin ∧
       margin.right_margin - margin.left_margin ≤ 1 ∧
       0 ≤ margin.bottom_margin - margin.top_margin ∧
       margin.bottom_margin - margin.top_margin ≤ 1) ∧
      (inner.x1 = outer.x1 + margin.left_margin ∧ inner.y1 = outer.y1 + margin.top_margin ∧
       inner.x2 = outer.x2 - margin.right_margin ∧
       inner.y2 = outer.y2 - margin.bottom_margin) ∧
      (inner.x2 - inner.x1 = inner_w ∧ inner.y2 - inner.y1 = inner_h) := by
  have h0 : ¬ (video_width = 0 ∨ video_height = 0) := by
    rintro (h | h)
    · exact hw h
    · exact hh h
  obtain ⟨dn, dd⟩ := dar
  cases transposed
  · obtain ⟨⟨hl, hr, ht, hb⟩, hreg, hext, ⟨hiw, hih⟩⟩ :=
      letterbox_fit_margins lib outer dn dd hx hy hxr hyr
    refine ⟨(letterbox_fit lib outer dn dd).1, (letterbox_fit lib outer dn dd).2, _, _, ?_,
      ⟨rfl, rfl⟩, ⟨hl, hr, ht, hb⟩, letterbox_fit_centred lib outer dn dd hx hy hxr hyr,
      hreg, hext⟩
    simp [gst_imx_2d_canvas_calculate_letterbox_margin, h0, hdar]
  · obtain ⟨⟨hl, hr, ht, hb⟩, hreg, hext, ⟨hiw, hih⟩⟩ :=
      letterbox_fit_margins lib outer dd dn hx hy hxr hyr
    refine ⟨(letterbox_fit lib outer dd dn).1, (letterbox_fit lib outer dd dn).2, _, _, ?_,
      ⟨rfl, rfl⟩, ⟨hl, hr, ht, hb⟩, letterbox_fit_centred lib outer dd dn hx hy hxr hyr,
      hreg, hext⟩
    simp [gst_imx_2d_canvas_calculate_letterbox_margin, h0, hdar]

/-- Instance of C23: a 720x480 video with square pixels in a 1921x1080 outer
rectangle; the combined horizontal margin 301 is split into 150 and 151. -/
theorem letterbox_margins_centred_witness :
    gst_imx_2d_canvas_calculate_letterbox_margin gstreamer ⟨0, 0, 0, 0⟩ ⟨0, 0, 1921, 1080⟩
        false 720 480 1 1
      = (⟨150, 0, 151, 0⟩, ⟨150, 0, 1770, 1080⟩) ∧
    ∃ (margin : Imx2dBlitMargin) (inner : Imx2dRegion) (inner_w inner_h : Int),
      gst_imx_2d_canvas_calculate_letterbox_margin gstreamer ⟨0, 0, 0, 0⟩ ⟨0, 0, 1921, 1080⟩
        false 720 480 1 1 = (margin, inner) ∧
      (inner_w = ((letterbox_inner gstreamer ⟨0, 0, 1921, 1080⟩ 3 2).1 : Int) ∧
       inner_h = ((letterbox_inner gstreamer ⟨0, 0, 1921, 1080⟩ 3 2).2 : Int)) ∧
      (margin.left_margin = (1921 - 0 - inner_w) / 2 ∧
       margin.right_margin = (1921 - 0 - inner_w) - margin.left_margin ∧
       margin.top_margin = (1080 - 0 - inner_h) / 2 ∧
       margin.bottom_margin = (1080 - 0 - inner_h) - margin.top_margin) ∧
      (0 ≤ margin.right_margin - margin.left_margin ∧
       margin.right_margin - margin.left_margin ≤ 1 ∧
       0 ≤ margin.bottom_margin - margin.top_margin ∧
       margin.bottom_margin - margin.top_margin ≤ 1) ∧
      (inner.x1 = 0 + margin.left_margin ∧ inner.y1 = 0 + margin.top_margin ∧
       inner.x2 = 1921 - margin.right_margin ∧ inner.y2 = 1080 - margin.bottom_margin) ∧
      (inner.x2 - inner.x1 = inner_w ∧ inner.y2 - inner.y1 = inner_h) :=
  ⟨by decide,
   letterbox_margins_centred gstreamer ⟨0, 0, 0, 0⟩ ⟨0, 0, 1921, 1080⟩ false 720 480 1 1
     (3, 2) (by decide) (by decide) (by decide) (by decide) (by decide) (by decide)
     (by decide)⟩

/-- C24: for an outer rectangle with `outer_h > 0` (extents that fit a C `int`),
positive `gint` values `ratioN`, `ratioD` and a ratio factor
`outer_w * ratioD / outer_h` that fits 32 bits, with the library as modelled, the
unclamped `inner_w` of the `if` statement is already at most `outer_w` and the
unclamped `inner_h` at most `outer_h`, so the `MIN` safeguard changes neither.
That the two other scaled values fit 32 bits follows and is not needed as an
assumption. -/
theorem letterbox_clamp_changes_nothing (outer : Imx2dRegion) (n d : Nat)
    (hx : outer.x1 ≤ outer.x2) (hy : outer.y1 < outer.y2)
    (hxr : outer.x2 - outer.x1 ≤ G_MAXINT) (hyr : outer.y2 - outer.y1 ≤ G_MAXINT)
    (hn0 : 0 < n) (hn : (n : Int) ≤ G_MAXINT) (hd0 : 0 < d) (hd : (d : Int) ≤ G_MAXINT)
    (hfit : letterbox_outer_w outer * d / letterbox_outer_h outer < 4294967296) :
    (letterbox_unclamped_inner gstreamer outer n d).1 ≤ letterbox_outer_w outer ∧
    (letterbox_unclamped_inner gstreamer outer n d).2 ≤ letterbox_outer_h outer ∧
    letterbox_inner gstreamer outer n d = letterbox_unclamped_inner gstreamer outer n d ∧
    (letterbox_unclamped_inner gstreamer outer n d
      = (if n ≤ letterbox_outer_w outer * d / letterbox_outer_h outer
         then (letterbox_outer_h outer * n / d, letterbox_outer_h outer)
         else (letterbox_outer_w outer, letterbox_outer_w outer * d / n))) := by
  obtain ⟨h1, h2⟩ := letterbox_unclamped_inner_model outer n d hx hy hxr hyr hn0 hn hd0 hd hfit
  by_cases hge : n ≤ letterbox_outer_w outer * d / letterbox_outer_h outer
  · obtain ⟨hu, hle⟩ := h1 hge
    simp only [letterbox_inner, hu, hge, if_true, Nat.min_self, Nat.min_eq_left hle,
      le_refl, and_self, hle]
  · obtain ⟨hu, hlt⟩ := h2 (by omega)
    simp only [letterbox_inner, hu, hge, if_false, Nat.min_self,
      Nat.min_eq_left (le_of_lt hlt), le_refl, and_self, le_of_lt hlt]

/-- Instance of C24: the outer rectangle `{0, 0, 1920, 1080}` and the display ratio
`3/2`; the unclamped inner extents are 1620 and 1080. -/
theorem letterbox_clamp_changes_nothing_witness :
    letterbox_unclamped_inner gstreamer ⟨0, 0, 1920, 1080⟩ 3 2 = (1620, 1080) ∧
    (letterbox_unclamped_inner gstreamer ⟨0, 0, 1920, 1080⟩ 3 2).1
      ≤ letterbox_outer_w ⟨0, 0, 1920, 1080⟩ ∧
    (letterbox_unclamped_inner gstreamer ⟨0, 0, 1920, 1080⟩ 3 2).2
      ≤ letterbox_outer_h ⟨0, 0, 1920, 1080⟩ :=
  ⟨by decide,
   (letterbox_clamp_changes_nothing ⟨0, 0, 1920, 1080⟩ 3 2 (by decide) (by decide)
      (by decide) (by decide) (by decide) (by decide) (by decide) (by decide)
      (by decide)).1,
   (letterbox_clamp_changes_nothing ⟨0, 0, 1920, 1080⟩ 3 2 (by decide) (by decide)
      (by decide) (by decide) (by decide) (by decide) (by decide) (by decide)
      (by decide)).2.1⟩

/-! ## The alignment of a layout of height 1080 -/

/-- C21: with the row count of a layout as modelled (its logical height), for an
output layout of logical height 1080 and the row count alignment 16 the number of
padding rows that `gst_imx_2d_align_output_video_info` stores is 8, the total row
count with the padding is 1088, the bottom padding handed to
`gst_video_info_align` is 8, and the height of the layout after the call is still
1080, for every behaviour of `gst_video_info_align`. -/
theorem align_output_height_1080
    (lib_align : GstVideoInfo → GstVideoAlignment → GstVideoInfo)
    (info : GstVideoInfo) (v : Int) (caps : Imx2dHardwareCapabilities)
    (hheight : info.height = 1080) (halign : caps.total_row_count_alignment = 16) :
    (gst_imx_2d_align_output_video_info gst_imx_video_utils_calculate_total_num_frame_rows
        lib_align info (some v) caps).2 = some 8 ∧
    gst_imx_video_utils_calculate_total_num_frame_rows info + 8 = 1088 ∧
    (align_video_alignment info.n_planes caps.stride_alignment
        (align_plane_row_remainder (gst_imx_video_utils_calculate_total_num_frame_rows info)
          caps.total_row_count_alignment)).padding_bottom = 8 ∧
    (gst_imx_2d_align_output_video_info gst_imx_video_utils_calculate_total_num_frame_rows
        lib_align info (some v) caps).1.height = 1080 := by
  have hrem : align_plane_row_remainder
      (gst_imx_video_utils_calculate_total_num_frame_rows info)
      caps.total_row_count_alignment = 8 := by
    unfold gst_imx_video_utils_calculate_total_num_frame_rows
    rw [hheight, halign]
    decide
  refine ⟨?_, ?_, ?_, ?_⟩
  · show some (align_plane_row_remainder _ _) = some 8
    rw [hrem]
  · unfold gst_imx_video_utils_calculate_total_num_frame_rows
    rw [hheight]
    decide
  · show toGuint (align_plane_row_remainder _ _) = 8
    rw [hrem]
    decide
  · exact hheight

/-- Instance of C21: a 1920x1080 frame with one plane and the example capabilities,
with `gst_video_info_align` as modelled; the padded height 1088 is reset to 1080. -/
theorem align_output_height_1080_witness :
    (gst_imx_2d_align_output_video_info gst_imx_video_utils_calculate_total_num_frame_rows
        gst_video_info_align example_video_info (some 0) example_capabilities).2 = some 8 ∧
    (gst_video_info_align example_video_info (align_video_alignment 1 64 8)).height = 1088 ∧
    (gst_imx_2d_align_output_video_info gst_imx_video_utils_calculate_total_num_frame_rows
        gst_video_info_align example_video_info (some 0) example_capabilities).1.height
      = 1080 :=
  ⟨(align_output_height_1080 gst_video_info_align example_video_info 0 example_capabilities
      rfl rfl).1,
   by decide,
   (align_output_height_1080 gst_video_info_align example_video_info 0 example_capabilities
      rfl rfl).2.2.2⟩

/-! ## Decoding the advertised format names -/

/-- The formats listed in `hardwareTableFormats` are exactly those that
`gst_imx_2d_convert_to_gst_video_format` translates to a format other than
`UNKNOWN`. -/
theorem mem_hardwareTableFormats_iff (h : Imx2dPixelFormat) :
    h ∈ hardwareTableFormats ↔ gst_imx_2d_convert_to_gst_video_format h ≠ .UNKNOWN := by
  cases h <;> simp [hardwareTableFormats, gst_imx_2d_convert_to_gst_video_format]

/-- The tile layout extraction on a fixed caps of one structure whose format string
is `format_str`, with a tile layout variable to write to. -/
theorem remove_tile_layout_fixed_cases (s : GstStructure) (features : List String)
    (format_str : String) (l0 : GstImx2dTileLayout)
    (hfixed : gst_caps_is_fixed (.structures [(s, features)]) = true)
    (hformat : gst_structure_get_string s "format" = some format_str) :
    (format_str = "NV12_AMPHION_8x128" →
      gst_imx_remove_tile_layout_from_caps (.structures [(s, features)]) (some l0)
        = some (some (.structures
            [(gst_structure_set_value s "format" (.string "NV12"), features)]),
          some .AMPHION_8x128)) ∧
    (format_str = "NV21_AMPHION_8x128" →
      gst_imx_remove_tile_layout_from_caps (.structures [(s, features)]) (some l0)
        = some (some (.structures
            [(gst_structure_set_value s "format" (.string "NV21"), features)]),
          some .AMPHION_8x128)) ∧
    (format_str ≠ "NV12_AMPHION_8x128" → format_str ≠ "NV21_AMPHION_8x128" →
      gst_imx_remove_tile_layout_from_caps (.structures [(s, features)]) (some l0)
        = some (some (.structures [(s, features)]), some .NONE)) := by
  have hne : gst_caps_is_empty (.structures [(s, features)]) = false := rfl
  have hna : gst_caps_is_any (.structures [(s, features)]) = false := rfl
  refine ⟨?_, ?_, ?_⟩
  · intro h
    subst h
    simp [gst_imx_remove_tile_layout_from_caps, hne, hna, hfixed, hformat,
      nv12_amphion_8x128_str]
  · intro h
    subst h
    simp [gst_imx_remove_tile_layout_from_caps, hne, hna, hfixed, hformat,
      nv12_amphion_8x128_str, nv21_amphion_8x128_str]
  · intro h12 h21
    simp [gst_imx_remove_tile_layout_from_caps, hne, hna, hfixed, hformat,
      nv12_amphion_8x128_str, nv21_amphion_8x128_str, h12, h21]

/-- A hardware format that is not tiled and whose name is a plain format name that
reads back as the format it was translated to decodes to itself. -/
theorem plain_name_decodes (h : Imx2dPixelFormat) (name : String)
    (h12 : name ≠ "NV12_AMPHION_8x128") (h21 : name ≠ "NV21_AMPHION_8x128")
    (hback : gst_imx_2d_convert_from_gst_video_format (gst_video_format_from_string name)
      (some .NONE) = h)
    (s : GstStructure) (features : List String) (l0 : GstImx2dTileLayout)
    (hfixed : gst_caps_is_fixed (.structures [(s, features)]) = true)
    (hformat : gst_structure_get_string s "format" = some name) :
    ∃ (s' : GstStructure) (layout : GstImx2dTileLayout) (canonical : String),
      gst_imx_remove_tile_layout_from_caps (.structures [(s, features)]) (some l0)
        = some (some (.structures [(s', features)]), some layout) ∧
      gst_structure_get_string s' "format" = some canonical ∧
      gst_imx_2d_convert_from_gst_video_format (gst_video_format_from_string canonical)
        (some layout) = h :=
  ⟨s, .NONE, name,
    (remove_tile_layout_fixed_cases s features name l0 hfixed hformat).2.2 h12 h21,
    hformat, hback⟩

/-- C25: for every hardware format `h` of the table of
`gst_imx_2d_convert_to_gst_video_format`, the two tiled formats included, the name
that the caps builder emits for `h` exists, and on every fixed caps that carries
this name as its format the tile layout extraction gives a canonical name and a
layout such that reading the canonical name as a logical format and translating
it with that layout gives `h` again.  The names of the logical formats are read
and written as modelled. -/
theorem advertised_names_decode (h : Imx2dPixelFormat) (hh : h ∈ hardwareTableFormats) :
    ∃ name : String,
      caps_format_str gst_video_format_to_string h = some name ∧
      ∀ (s : GstStructure) (features : List String) (l0 : GstImx2dTileLayout),
        gst_caps_is_fixed (.structures [(s, features)]) = true →
        gst_structure_get_string s "format" = some name →
        ∃ (s' : GstStructure) (layout : GstImx2dTileLayout) (canonical : String),
          gst_imx_remove_tile_layout_from_caps (.structures [(s, features)]) (some l0)
            = some (some (.structures [(s', features)]), some layout) ∧
          gst_structure_get_string s' "format" = some canonical ∧
          gst_imx_2d_convert_from_gst_video_format (gst_video_format_from_string canonical)
            (some layout) = h := by
  cases h <;> simp [hardwareTableFormats] at hh
  case TILED_NV12_AMPHION_8x128 =>
    refine ⟨"NV12_AMPHION_8x128", rfl, ?_⟩
    intro s features l0 hfixed hformat
    exact ⟨gst_structure_set_value s "format" (.string "NV12"), .AMPHION_8x128, "NV12",
      (remove_tile_layout_fixed_cases s features _ l0 hfixed hformat).1 rfl,
      get_string_set_value s "format" "NV12", rfl⟩
  case TILED_NV21_AMPHION_8x128 =>
    refine ⟨"NV21_AMPHION_8x128", rfl, ?_⟩
    intro s features l0 hfixed hformat
    exact ⟨gst_structure_set_value s "format" (.string "NV21"), .AMPHION_8x128, "NV21",
      (remove_tile_layout_fixed_cases s features _ l0 hfixed hformat).2.1 rfl,
      get_string_set_value s "format" "NV21", rfl⟩
  all_goals
    refine ⟨_, rfl, ?_⟩
    intro s features l0 hfixed hformat
    exact plain_name_decodes _ _ (by decide) (by decide) rfl s features l0 hfixed hformat

/-- Instances of C25: the tiled NV21 format and the RGBA format, on example caps
that carry their names. -/
theorem advertised_names_decode_witness :
    Imx2dPixelFormat.TILED_NV21_AMPHION_8x128 ∈ hardwareTableFormats ∧
    caps_format_str gst_video_format_to_string .TILED_NV21_AMPHION_8x128
      = some "NV21_AMPHION_8x128" ∧
    gst_caps_is_fixed example_caps_tiled_nv21 = true ∧
    (∃ name : String,
      caps_format_str gst_video_format_to_string .TILED_NV21_AMPHION_8x128 = some name ∧
      ∀ (s : GstStructure) (features : List String) (l0 : GstImx2dTileLayout),
        gst_caps_is_fixed (.structures [(s, features)]) = true →
        gst_structure_get_string s "format" = some name →
        ∃ (s' : GstStructure) (layout : GstImx2dTileLayout) (canonical : String),
          gst_imx_remove_tile_layout_from_caps (.structures [(s, features)]) (some l0)
            = some (some (.structures [(s', features)]), some layout) ∧
          gst_structure_get_string s' "format" = some canonical ∧
          gst_imx_2d_convert_from_gst_video_format (gst_video_format_from_string canonical)
            (some layout) = .TILED_NV21_AMPHION_8x128) ∧
    gst_imx_remove_tile_layout_from_caps example_caps_tiled_nv21 (some .NONE)
      = some (some (.structures [(⟨"video/x-raw",
          [("format", .string "NV21"), ("width", .int 1920), ("height", .int 1080),
            ("framerate", .fraction 30 1)]⟩, [])]), some .AMPHION_8x128) ∧
    gst_imx_2d_convert_from_gst_video_format (gst_video_format_from_string "NV21")
      (some .AMPHION_8x128) = .TILED_NV21_AMPHION_8x128 :=
  ⟨by decide, by decide, by decide,
   advertised_names_decode .TILED_NV21_AMPHION_8x128 (by decide),
   by decide, by decide⟩

end Imx2d
